import Mathlib

/-!
# Verification of the mcp_excel_server repository

A shallow embedding of the Excel MCP server's core and tool layers
(`src/mcp_excel_server/core/{workbook,sheet,range}.py`,
`src/mcp_excel_server/api/tools/{workbook,worksheet,range}.py`) in Lean 4,
together with theorems settling the specification claims.

Modelling conventions:
* The file system is an association list from full paths to workbook values;
  saving a workbook overwrites the entry (or appends a new one).
* A workbook is an ordered list of (name, sheet) pairs, mirroring
  `openpyxl.Workbook.sheetnames` order.
* A sheet is a grid of cells (list of rows, 1-based coordinates) plus the
  list of merged cell ranges (mirroring `worksheet.merged_cells.ranges`).
* Cell values are modelled as strings; a cell style is the tuple of the five
  style attributes the code manipulates (font, border, fill, number format,
  alignment).  `style = none` models an openpyxl cell whose `has_style` is
  false; assigning any style attribute makes it `some`.
* Python exceptions are values of `PyErr`; each operation returns the file
  system after the call together with `Except PyErr result`, so an error
  raised mid-operation keeps the state reached at raise time.
-/

set_option linter.unusedVariables false

namespace MCPExcel

/-- Python-level errors used by the code: the typed errors of
`core/exceptions.py` plus the built-in errors the code can raise. -/
inductive PyErr where
  | workbookError (msg : String)
  | sheetError (msg : String)
  | validationError (msg : String)
  | rangeError (msg : String)
  | dataError (msg : String)
  | valueError (msg : String)
  | keyError (key : String)
  | fileNotFoundError (msg : String)
  deriving DecidableEq, Repr

instance {ε : Type u} {α : Type v} [DecidableEq ε] [DecidableEq α] :
    DecidableEq (Except ε α) := fun x y =>
  match x, y with
  | .error a, .error b =>
      if h : a = b then .isTrue (by rw [h]) else .isFalse (by simp [h])
  | .ok a, .ok b =>
      if h : a = b then .isTrue (by rw [h]) else .isFalse (by simp [h])
  | .error _, .ok _ => .isFalse (by simp)
  | .ok _, .error _ => .isFalse (by simp)

/-- `str(e)` for a Python exception: the message, except that
`str(KeyError(k))` is the repr of the key, i.e. quoted. -/
def PyErr.str : PyErr → String
  | .workbookError m => m
  | .sheetError m => m
  | .validationError m => m
  | .rangeError m => m
  | .dataError m => m
  | .valueError m => m
  | .keyError k => "'" ++ k ++ "'"
  | .fileNotFoundError m => m

/-- The five style attributes copied / cleared by the code
(`font`, `border`, `fill`, `number_format`, `alignment`). -/
structure Style where
  font : String
  border : String
  fill : String
  numFmt : String
  align : String
  deriving DecidableEq, Repr

/-- The default-constructed style written by `delete_range`
(`Font()`, `Border()`, `PatternFill()`, `"General"`, `Alignment()`). -/
def defaultStyle : Style :=
  { font := "Font()", border := "Border()", fill := "PatternFill()"
    numFmt := "General", align := "Alignment()" }

/-- A cell: a value (or empty) and, when any style attribute was ever
assigned, its style (`style = none` models `has_style = False`). -/
structure Cell where
  value : Option String
  style : Option Style
  deriving DecidableEq, Repr

/-- A never-touched cell. -/
def emptyCell : Cell := { value := none, style := none }

/-- A merged cell range, stored structurally as its bounding coordinates
(`CellRange` in openpyxl). All coordinates are 1-based. -/
structure MRange where
  minRow : Nat
  minCol : Nat
  maxRow : Nat
  maxCol : Nat
  deriving DecidableEq, Repr

/-- Structural worker for `getColumnLetter`: the first argument is fuel
(any fuel at least the argument itself is enough, since the argument
strictly decreases). -/
def getColumnLetterAux : Nat → Nat → String
  | _, 0 => ""
  | 0, _+1 => ""
  | fuel+1, n+1 =>
      getColumnLetterAux fuel (n / 26) ++ String.singleton (Char.ofNat (65 + n % 26))

/-- `openpyxl.utils.get_column_letter`: bijective base-26 column letters
(1 = A, 26 = Z, 27 = AA, ...). Returns `""` on 0, which the library never
produces for valid columns. -/
def getColumnLetter (n : Nat) : String :=
  getColumnLetterAux n n

/-- Digit-accumulation over a character list (the numeric value of an
all-digit string). -/
def digitsToNat (cs : List Char) : Nat :=
  cs.foldl (fun acc c => acc * 10 + (c.toNat - 48)) 0

/-- Letters-to-column-index accumulation (A=1 ... Z=26, AA=27 ...),
case-insensitively. -/
def colOfLetters (s : String) : Nat :=
  s.toList.foldl (fun acc c => acc * 26 + (c.toUpper.toNat - 64)) 0

/-- Python `s.split(sep)` for a single-character separator. -/
def pySplitAux (sep : Char) : List Char → List Char → List String
  | [], acc => [⟨acc.reverse⟩]
  | c :: cs, acc =>
      if c = sep then ⟨acc.reverse⟩ :: pySplitAux sep cs []
      else pySplitAux sep cs (c :: acc)

/-- Python `s.split(sep)`. -/
def pySplit (s : String) (sep : Char) : List String :=
  pySplitAux sep s.toList []

/-- Python `s.endswith(suffix)`. -/
def pyEndsWith (s suf : String) : Bool :=
  suf.toList.isSuffixOf s.toList

/-- Python `s.upper()`. -/
def pyUpper (s : String) : String :=
  ⟨s.toList.map Char.toUpper⟩

/-- `openpyxl.utils.column_index_from_string`: valid for 1 to 3 letters
(the library's cache covers columns A..ZZZ), otherwise `ValueError`. -/
def columnIndexFromString (s : String) : Except PyErr Nat :=
  if s.toList.length ≥ 1 ∧ s.toList.length ≤ 3 ∧ s.toList.all Char.isAlpha then
    .ok (colOfLetters s)
  else
    .error (.valueError (s ++ " is not a valid column name"))

/-- Python `int(s)` restricted to the shapes the code feeds it (the result
of filtering a string by `str.isdigit` / `str.isalpha`): succeeds exactly on
a non-empty all-digit string. -/
def pyInt (s : String) : Except PyErr Nat :=
  if s ≠ "" ∧ s.toList.all Char.isDigit then
    .ok (digitsToNat s.toList)
  else
    .error (.valueError ("invalid literal for int() with base 10: '" ++ s ++ "'"))

/-- `''.join(filter(str.isdigit, s))`. -/
def filterDigits (s : String) : String :=
  ⟨s.toList.filter Char.isDigit⟩

/-- `''.join(filter(str.isalpha, s))`. -/
def filterAlpha (s : String) : String :=
  ⟨s.toList.filter Char.isAlpha⟩

/-- Modelled from the spec: `core/cell_utils.py` is not under `src/`, so
`parseCellRef` follows spec §4.1: split the leading letters from the
trailing digits (case-insensitive letters, base-26 column, 1-based row) and
fail with `ValidationError` when the string is not of this letters-then-
digits shape. Returns `(row, column)`. -/
def parseCellRef (s : String) : Except PyErr (Nat × Nat) :=
  let letters := s.toList.takeWhile Char.isAlpha
  let rest := s.toList.drop letters.length
  if letters ≠ [] ∧ rest ≠ [] ∧ rest.all Char.isDigit then
    .ok (digitsToNat rest, colOfLetters ⟨letters⟩)
  else
    .error (.validationError ("Invalid cell reference: " ++ s))

/-- Modelled from the spec: `core/cell_utils.py` (`parse_cell_range`) is not
under `src/`. Per spec §4.1 it parses a start cell and an optional end cell;
the call sites in `core/sheet.py` test the returned end components against
`None`, so the end row/column are `none` exactly when no end cell is given.
Corner order is not normalized (spec §9 records this as unenforced). -/
def parse_cell_range (start : String) (stop : Option String) :
    Except PyErr (Nat × Nat × Option Nat × Option Nat) := do
  let (r0, c0) ← parseCellRef start
  match stop with
  | none => .ok (r0, c0, none, none)
  | some e =>
      let (r1, c1) ← parseCellRef e
      .ok (r0, c0, some r1, some c1)

/-! ## Sheets, workbooks and the file system -/

/-- A worksheet: cell grid (row-major, outer index = row-1, inner = col-1)
and the merged cell ranges. -/
structure Sheet where
  grid : List (List Cell)
  merged : List MRange
  deriving DecidableEq, Repr

/-- A sheet as created by `openpyxl.Workbook()` / `create_sheet`. -/
def emptySheet : Sheet := { grid := [], merged := [] }

/-- An ordered workbook: list of (sheet name, sheet). -/
structure Workbook where
  sheets : List (String × Sheet)
  deriving DecidableEq, Repr

/-- `wb.sheetnames`. -/
def Workbook.sheetnames (wb : Workbook) : List String :=
  wb.sheets.map Prod.fst

/-- `wb[name]` (first sheet with that title). -/
def Workbook.find? (wb : Workbook) (name : String) : Option Sheet :=
  (wb.sheets.find? (fun p => p.1 = name)).map Prod.snd

/-- Replace the sheet stored under `name` by `f` of it. -/
def Workbook.modifySheet (wb : Workbook) (name : String) (f : Sheet → Sheet) :
    Workbook :=
  { sheets := wb.sheets.map (fun p => if p.1 = name then (p.1, f p.2) else p) }

/-- The file system: full path ↦ saved workbook. -/
abbrev FS := List (String × Workbook)

/-- Read a file. -/
def fsGet (fs : FS) (path : String) : Option Workbook :=
  (fs.find? (fun p => p.1 = path)).map Prod.snd

/-- `wb.save(path)`: overwrite the entry at `path`, or create the file. -/
def fsSave : FS → String → Workbook → FS
  | [], path, wb => [(path, wb)]
  | (p, w) :: t, path, wb =>
      if p = path then (path, wb) :: t else (p, w) :: fsSave t path wb

/-- The configured workbook directory (`settings.excel_mcp_folder`, default
`"excel_files"`). -/
def excelFolder : String := "excel_files"

/-- `get_full_path(filename) = Path(settings.excel_mcp_folder) / filename`
for the relative filenames the model works with. -/
def get_full_path (filename : String) : String :=
  excelFolder ++ "/" ++ filename

/-! ## Grid primitives (openpyxl cell access and row/column removal) -/

/-- Pad a list on the right to length at least `n`. -/
def padTo (l : List α) (n : Nat) (d : α) : List α :=
  l ++ List.replicate (n - l.length) d

/-- Read cell (1-based `r`, `c`); an absent cell reads as `emptyCell`
(openpyxl creates it on access, which only affects reported dimensions,
not any behaviour the claims mention). -/
def Sheet.cellAt (s : Sheet) (r c : Nat) : Cell :=
  (((s.grid.get? (r-1)).getD []).get? (c-1)).getD emptyCell

/-- Write cell (1-based `r`, `c`), materialising rows/cells as openpyxl's
`ws.cell(row=..., column=...)` does. -/
def Sheet.setCell (s : Sheet) (r c : Nat) (cl : Cell) : Sheet :=
  let g := padTo s.grid r []
  match g.get? (r-1) with
  | some row => { s with grid := g.set (r-1) ((padTo row c emptyCell).set (c-1) cl) }
  | none => { s with grid := g }

/-- `ws.max_row`: 1 for an empty sheet, else the last materialised row. -/
def Sheet.maxRow (s : Sheet) : Nat :=
  max 1 s.grid.length

/-- `ws.max_column`: 1 for an empty sheet, else the longest materialised
row. -/
def Sheet.maxCol (s : Sheet) : Nat :=
  max 1 ((s.grid.map List.length).foldr max 0)

/-- The cell written by `delete_range`'s clearing loop: no value, all five
style attributes reset to their defaults. -/
def clearedCell : Cell := { value := none, style := some defaultStyle }

/-- The clearing loop of `delete_range` in `core/sheet.py`: for every cell
of the rectangle `r0..r1` × `c0..c1`, set the value to `None` and the five
style attributes to fresh defaults. -/
def clearRange (ws : Sheet) (r0 c0 r1 c1 : Nat) : Sheet :=
  (List.range' r0 (r1 + 1 - r0)).foldl (fun s i =>
    (List.range' c0 (c1 + 1 - c0)).foldl (fun s j =>
      s.setCell i j clearedCell) s) ws

/-- `ws.delete_rows(idx, amount)`: remove rows `idx .. idx+amount-1`
(1-based), shifting later rows up. -/
def Sheet.deleteRows (s : Sheet) (idx amount : Nat) : Sheet :=
  { s with grid := s.grid.take (idx - 1) ++ s.grid.drop (idx - 1 + amount) }

/-- `ws.delete_cols(idx, amount)`: remove columns `idx .. idx+amount-1`
(1-based) from every row, shifting later columns left. -/
def Sheet.deleteCols (s : Sheet) (idx amount : Nat) : Sheet :=
  { s with grid := s.grid.map (fun row => row.take (idx - 1) ++ row.drop (idx - 1 + amount)) }

/-- Insert at position `n` (append when `n` is past the end). -/
def listInsertAt (l : List α) (n : Nat) (a : α) : List α :=
  l.take n ++ a :: l.drop n

/-- Python `x or d` on an optional int (`None` and `0` are falsy). -/
def pyOr (o : Option Nat) (d : Nat) : Nat :=
  match o with
  | some n => if n = 0 then d else n
  | none => d

/-- Python truthiness test `o and o > bound` for an optional int. -/
def pyGtIfTruthy (o : Option Nat) (bound : Nat) : Bool :=
  match o with
  | some n => n ≠ 0 && bound < n
  | none => false

/-- `CellRange.coord` in openpyxl: a single-cell range collapses to the
bare cell reference ("A1"), otherwise "A1:B2". -/
def MRange.coordStr (m : MRange) : String :=
  if m.minCol = m.maxCol ∧ m.minRow = m.maxRow then
    getColumnLetter m.minCol ++ toString m.minRow
  else
    getColumnLetter m.minCol ++ toString m.minRow ++ ":" ++
      getColumnLetter m.maxCol ++ toString m.maxRow

/-- `CellRange.issubset` (`q <= r`). -/
def MRange.subset (q r : MRange) : Bool :=
  r.minRow ≤ q.minRow && q.maxRow ≤ r.maxRow &&
  r.minCol ≤ q.minCol && q.maxCol ≤ r.maxCol

/-- `Worksheet._clean_merge_range`: every cell covered by the merge except
the top-left one becomes a `MergedCell` (value `None`). The border
propagation it also performs is style-internal and kept as the existing
style here. -/
def cleanMergeRange (s : Sheet) (q : MRange) : Sheet :=
  (List.range' q.minRow (q.maxRow + 1 - q.minRow)).foldl (fun s r =>
    (List.range' q.minCol (q.maxCol + 1 - q.minCol)).foldl (fun s c =>
      if r = q.minRow ∧ c = q.minCol then s
      else s.setCell r c { value := none, style := (s.cellAt r c).style }) s) s

/-- `Worksheet.merge_cells`: build the `CellRange` (rejecting inverted
bounds), `MultiCellRange.add` it — a no-op when the range is already
contained in an existing merged range — then clean the covered cells. -/
def Sheet.mergeCells (s : Sheet) (q : MRange) : Except PyErr Sheet :=
  if q.maxRow < q.minRow ∨ q.maxCol < q.minCol then
    .error (.valueError "Invalid cell range")
  else
    let s := if s.merged.any (fun r => q.subset r) then s
             else { s with merged := s.merged ++ [q] }
    .ok (cleanMergeRange s q)

/-- `Worksheet.unmerge_cells`: containment check
(`cr.coord not in self.merged_cells` uses subset containment), then exact
removal from the range list (`list.remove`); the freed cells are recreated
as ordinary (empty) cells, which leaves the grid as it was. -/
def Sheet.unmergeCells (s : Sheet) (q : MRange) : Except PyErr Sheet :=
  if q.maxRow < q.minRow ∨ q.maxCol < q.minCol then
    .error (.valueError "Invalid cell range")
  else if ¬ (s.merged.any (fun r => q.subset r)) then
    .error (.valueError ("Cell range " ++ q.coordStr ++ " is not merged"))
  else if ¬ (s.merged.any (fun r => decide (r = q))) then
    .error (.valueError "list.remove(x): x not in list")
  else
    .ok { s with merged := s.merged.erase q }

/-! ## `core/workbook.py` -/

namespace CoreWorkbook

/-- `openpyxl.load_workbook`: `FileNotFoundError` when the file is absent. -/
def load_workbook (fs : FS) (path : String) : Except PyErr Workbook :=
  match fsGet fs path with
  | some wb => .ok wb
  | none => .error (.fileNotFoundError
      ("[Errno 2] No such file or directory: '" ++ path ++ "'"))

/-- `get_workbook(filepath)`: `WorkbookError` "File not found" when the
file at `get_full_path(filepath)` is absent, else the loaded workbook. -/
def get_workbook (fs : FS) (filepath : String) : Except PyErr Workbook :=
  let path := get_full_path filepath
  match fsGet fs path with
  | none => .error (.workbookError ("File not found: " ++ filepath))
  | some wb => .ok wb

/-- `save_workbook(wb, filepath)`: overwrite the file at
`get_full_path(filepath)`. -/
def save_workbook (fs : FS) (wb : Workbook) (filepath : String) : FS :=
  fsSave fs (get_full_path filepath) wb

/-- The response dictionary of `create_workbook`. -/
structure CreateWorkbookResp where
  success : Bool
  message : String
  filename : Option String
  deriving DecidableEq, Repr

/-- A fresh `openpyxl.Workbook()`: one sheet titled "Sheet". -/
def newOpenpyxlWorkbook : Workbook := { sheets := [("Sheet", emptySheet)] }

/-- `create_workbook(filename, sheet_name)`: early `success = False` return
when the file exists (the file is not touched); otherwise create a fresh
workbook, rename (or create) the initial sheet, and save. -/
def create_workbook (fs : FS) (filename sheet_name : String) :
    FS × CreateWorkbookResp :=
  let path := get_full_path filename
  match fsGet fs path with
  | some _ => (fs, ⟨false, "Workbook already exists: " ++ filename, none⟩)
  | none =>
      let wb := newOpenpyxlWorkbook
      let wb :=
        if wb.sheetnames.contains "Sheet" then
          { sheets := wb.sheets.map
              (fun p => if p.1 = "Sheet" then (sheet_name, p.2) else p) : Workbook }
        else
          { sheets := wb.sheets ++ [(sheet_name, emptySheet)] }
      (fsSave fs path wb,
       ⟨true, "Created workbook '" ++ filename ++ "'", some filename⟩)

/-- The part of `get_workbook_info`'s dictionary the embedding can speak
about: the file name and the sheet-name list. The real dictionary also
carries `path.stat()` file metadata (size, mtime), which lives outside the
modelled state. -/
structure WorkbookInfo where
  filename : String
  sheets : List String
  deriving DecidableEq, Repr

/-- `path.name`: the final path component. -/
def pathBasename (path : String) : String :=
  (pySplit path '/').getLastD path

/-- `get_workbook_info(filepath)`: raises `WorkbookError` "File not found"
when the file is absent, else returns workbook metadata. -/
def get_workbook_info (fs : FS) (filepath : String) :
    Except PyErr WorkbookInfo :=
  let path := get_full_path filepath
  match fsGet fs path with
  | none => .error (.workbookError ("File not found: " ++ filepath))
  | some wb => .ok ⟨pathBasename path, wb.sheetnames⟩

/-- The response dictionary of `list_workbooks`. -/
structure ListWorkbooksResp where
  success : Bool
  files : List String
  message : Option String
  deriving DecidableEq, Repr

/-- `list_workbooks()`: `os.makedirs(..., exist_ok=True)` then filter the
directory listing by the `.xlsx` / `.xlsm` extensions. The directory is
modelled as `Option (List String)` (`none` = absent). The `except` branch
covers OS failures (e.g. permissions) outside the modelled state, so the
modelled function always reaches the success return. -/
def list_workbooks (dir : Option (List String)) :
    Option (List String) × ListWorkbooksResp :=
  let contents := dir.getD []
  (some contents,
   ⟨true, contents.filter (fun f => pyEndsWith f ".xlsx" || pyEndsWith f ".xlsm"), none⟩)

end CoreWorkbook

/-! ## `core/sheet.py` -/

namespace CoreSheet

open CoreWorkbook

/-- The `{"success": ..., "message": ...}` dictionaries returned by
`merge_range` / `unmerge_range`. -/
structure SheetResp where
  success : Bool
  message : String
  deriving DecidableEq, Repr

/-- `format_range_string(start_row, start_col, end_row, end_col)`. -/
def format_range_string (r0 c0 r1 c1 : Nat) : String :=
  getColumnLetter c0 ++ toString r0 ++ ":" ++ getColumnLetter c1 ++ toString r1

/-- `create_sheet(filepath, sheet_name)` of `core/sheet.py`. -/
def create_sheet (fs : FS) (filepath sheet_name : String) :
    FS × Except PyErr String :=
  let path := get_full_path filepath
  match load_workbook fs path with
  | .error e => (fs, .error (.sheetError e.str))
  | .ok wb =>
      if wb.sheetnames.contains sheet_name then
        (fs, .error (.sheetError ("Sheet '" ++ sheet_name ++ "' already exists")))
      else
        (fsSave fs path { sheets := wb.sheets ++ [(sheet_name, emptySheet)] },
         .ok ("Sheet '" ++ sheet_name ++ "' created successfully"))

/-- `copy_sheet(filepath, source_sheet, target_sheet)`:
`wb.copy_worksheet` appends a copy, which is then retitled. -/
def copy_sheet (fs : FS) (filepath source_sheet target_sheet : String) :
    FS × Except PyErr String :=
  let path := get_full_path filepath
  match load_workbook fs path with
  | .error e => (fs, .error (.sheetError e.str))
  | .ok wb =>
      match wb.find? source_sheet with
      | none => (fs, .error (.sheetError ("Source sheet '" ++ source_sheet ++ "' not found")))
      | some src =>
          if wb.sheetnames.contains target_sheet then
            (fs, .error (.sheetError ("Target sheet '" ++ target_sheet ++ "' already exists")))
          else
            (fsSave fs path { sheets := wb.sheets ++ [(target_sheet, src)] },
             .ok ("Sheet '" ++ source_sheet ++ "' copied to '" ++ target_sheet ++ "'"))

/-- `delete_sheet(filepath, sheet_name)`: rejects a missing sheet and
rejects deleting the only sheet, else deletes and saves. -/
def delete_sheet (fs : FS) (filepath sheet_name : String) :
    FS × Except PyErr String :=
  let path := get_full_path filepath
  match load_workbook fs path with
  | .error e => (fs, .error (.sheetError e.str))
  | .ok wb =>
      if ¬ (wb.sheetnames.contains sheet_name) then
        (fs, .error (.sheetError ("Sheet '" ++ sheet_name ++ "' not found")))
      else if wb.sheetnames.length = 1 then
        (fs, .error (.sheetError "Cannot delete the only sheet in workbook"))
      else
        (fsSave fs path { sheets := wb.sheets.eraseP (fun p => p.1 == sheet_name) },
         .ok ("Sheet '" ++ sheet_name ++ "' deleted"))

/-- `rename_sheet(filepath, old_name, new_name)`. -/
def rename_sheet (fs : FS) (filepath old_name new_name : String) :
    FS × Except PyErr String :=
  let path := get_full_path filepath
  match load_workbook fs path with
  | .error e => (fs, .error (.sheetError e.str))
  | .ok wb =>
      if ¬ (wb.sheetnames.contains old_name) then
        (fs, .error (.sheetError ("Sheet '" ++ old_name ++ "' not found")))
      else if wb.sheetnames.contains new_name then
        (fs, .error (.sheetError ("Sheet '" ++ new_name ++ "' already exists")))
      else
        (fsSave fs path
          { sheets := wb.sheets.map (fun p => if p.1 = old_name then (new_name, p.2) else p) },
         .ok ("Sheet renamed from '" ++ old_name ++ "' to '" ++ new_name ++ "'"))

/-- `move_sheet(filepath, sheet_name, index)`: after the bounds check,
`wb.move_sheet(sheet_name, offset=index - wb.index(sheet))` places the
sheet at position `index`. -/
def move_sheet (fs : FS) (filepath sheet_name : String) (index : Int) :
    FS × Except PyErr String :=
  let path := get_full_path filepath
  match load_workbook fs path with
  | .error e => (fs, .error (.sheetError e.str))
  | .ok wb =>
      match wb.sheets.find? (fun p => p.1 == sheet_name) with
      | none => (fs, .error (.sheetError ("Sheet '" ++ sheet_name ++ "' not found")))
      | some entry =>
          if index < 0 ∨ (wb.sheets.length : Int) ≤ index then
            (fs, .error (.sheetError ("Invalid index " ++ toString index ++
              ". Must be between 0 and " ++ toString (wb.sheets.length - 1))))
          else
            (fsSave fs path
              { sheets := listInsertAt (wb.sheets.eraseP (fun p => p.1 == sheet_name))
                  index.toNat entry },
             .ok ("Moved sheet '" ++ sheet_name ++ "' to position " ++ toString index))

/-- `delete_range(worksheet, start_cell, end_cell)` of `core/sheet.py`:
clear value and all five style attributes of every cell in the range to
defaults. -/
def delete_range (ws : Sheet) (start_cell : String) (end_cell : Option String) :
    Except PyErr Sheet :=
  match parse_cell_range start_cell end_cell with
  | .error e => .error e
  | .ok (r0, c0, er, ec) =>
      .ok (clearRange ws r0 c0 (er.getD r0) (ec.getD c0))

/-- `merge_range(filepath, sheet_name, start_cell, end_cell)`: load, check
the sheet, parse, require both corners, merge, save. Every non-`SheetError`
exception is wrapped as `SheetError(str(e))`. -/
def merge_range (fs : FS) (filepath sheet_name start_cell end_cell : String) :
    FS × Except PyErr SheetResp :=
  let path := get_full_path filepath
  match load_workbook fs path with
  | .error e => (fs, .error (.sheetError e.str))
  | .ok wb =>
      match wb.find? sheet_name with
      | none => (fs, .error (.sheetError ("Sheet '" ++ sheet_name ++ "' not found")))
      | some ws =>
          match parse_cell_range start_cell (some end_cell) with
          | .error e => (fs, .error (.sheetError e.str))
          | .ok (r0, c0, er, ec) =>
              match er, ec with
              | some r1, some c1 =>
                  let range_string := format_range_string r0 c0 r1 c1
                  match ws.mergeCells ⟨r0, c0, r1, c1⟩ with
                  | .error e => (fs, .error (.sheetError e.str))
                  | .ok ws' =>
                      (fsSave fs path (wb.modifySheet sheet_name (fun _ => ws')),
                       .ok ⟨true, "Merged range " ++ range_string ++ " in " ++ sheet_name⟩)
              | _, _ =>
                  (fs, .error (.sheetError "Both start and end cells must be specified for merging"))

/-- `unmerge_range(filepath, sheet_name, start_cell, end_cell)`: load,
check the sheet, parse, require both corners, then reject unless the exact
normalized range string is in the merged-range list (case-insensitive exact
string comparison, not containment), then unmerge and save. -/
def unmerge_range (fs : FS) (filepath sheet_name start_cell end_cell : String) :
    FS × Except PyErr SheetResp :=
  let path := get_full_path filepath
  match load_workbook fs path with
  | .error e => (fs, .error (.sheetError e.str))
  | .ok wb =>
      match wb.find? sheet_name with
      | none => (fs, .error (.sheetError ("Sheet '" ++ sheet_name ++ "' not found")))
      | some ws =>
          match parse_cell_range start_cell (some end_cell) with
          | .error e => (fs, .error (.sheetError e.str))
          | .ok (r0, c0, er, ec) =>
              match er, ec with
              | some r1, some c1 =>
                  let range_string := format_range_string r0 c0 r1 c1
                  let target_range := pyUpper range_string
                  if ¬ (ws.merged.any (fun mr => pyUpper mr.coordStr == target_range)) then
                    (fs, .error (.sheetError ("Range '" ++ range_string ++ "' is not merged")))
                  else
                    match ws.unmergeCells ⟨r0, c0, r1, c1⟩ with
                    | .error e => (fs, .error (.sheetError e.str))
                    | .ok ws' =>
                        (fsSave fs path (wb.modifySheet sheet_name (fun _ => ws')),
                         .ok ⟨true, "Unmerged range " ++ range_string ++ " in " ++ sheet_name⟩)
              | _, _ =>
                  (fs, .error (.sheetError "Both start and end cells must be specified for unmerging"))

/-- One iteration of the copy loop of `copy_range_operation`: read the
source cell from the live workbook, then assign value (and, when the source
cell has a style, the five copied style attributes) to the offset target
cell. `ws.cell` rejects coordinates below 1. -/
def copyCellStep (srcName tgtName : String) (ro co : Int) (wb : Workbook)
    (i j : Nat) : Except PyErr Workbook :=
  let sc := ((wb.find? srcName).getD emptySheet).cellAt i j
  let tr := (i : Int) + ro
  let tc := (j : Int) + co
  if tr < 1 ∨ tc < 1 then
    .error (.valueError "Row or column values must be at least 1")
  else
    .ok (wb.modifySheet tgtName (fun ws =>
      let tcell := ws.cellAt tr.toNat tc.toNat
      ws.setCell tr.toNat tc.toNat
        { value := sc.value
          style := match sc.style with
            | some st => some st
            | none => tcell.style }))

/-- `copy_range_operation(filepath, sheet_name, source_start, source_end,
target_start, target_sheet)`: load, check the sheet (`ValidationError`),
resolve the target sheet, parse the source range, parse the target anchor
by digit/letter filtering, copy cell-by-cell with the computed offsets,
save. Unexpected errors are wrapped as
`SheetError("Failed to copy range: ...")`. -/
def copy_range_operation (fs : FS)
    (filepath sheet_name source_start source_end target_start : String)
    (target_sheet : Option String) : FS × Except PyErr String :=
  let path := get_full_path filepath
  match load_workbook fs path with
  | .error e => (fs, .error (.sheetError ("Failed to copy range: " ++ e.str)))
  | .ok wb =>
      match wb.find? sheet_name with
      | none => (fs, .error (.validationError ("Sheet '" ++ sheet_name ++ "' not found")))
      | some _ =>
          let tgtName := target_sheet.getD sheet_name
          match target_sheet, wb.find? tgtName with
          | some t, none =>
              -- `wb[target_sheet]` raises `KeyError` for a missing sheet,
              -- wrapped by the catch-all into a SheetError
              (fs, .error (.sheetError ("Failed to copy range: " ++ (PyErr.keyError t).str)))
          | _, _ =>
              match parse_cell_range source_start (some source_end) with
              | .error e => (fs, .error e)
              | .ok (r0, c0, er, ec) =>
                  let r1 := er.getD r0
                  let c1 := ec.getD c0
                  match pyInt (filterDigits target_start) with
                  | .error e => (fs, .error (.validationError ("Invalid target cell: " ++ e.str)))
                  | .ok target_row =>
                      match columnIndexFromString (filterAlpha target_start) with
                      | .error e => (fs, .error (.validationError ("Invalid target cell: " ++ e.str)))
                      | .ok target_col =>
                          let ro : Int := (target_row : Int) - (r0 : Int)
                          let co : Int := (target_col : Int) - (c0 : Int)
                          match (List.range' r0 (r1 + 1 - r0)).foldlM (fun wb i =>
                              (List.range' c0 (c1 + 1 - c0)).foldlM (fun wb j =>
                                copyCellStep sheet_name tgtName ro co wb i j) wb) wb with
                          | .error e => (fs, .error (.sheetError ("Failed to copy range: " ++ e.str)))
                          | .ok wb' => (fsSave fs path wb', .ok "Range copied successfully")

/-- `delete_range_operation(filepath, sheet_name, start_cell, end_cell,
shift_direction)`: load, check sheet, parse, check end row/column against
the sheet bounds (Python truthiness: an end of `None` — or `0` — skips the
check), check the shift direction, clear the range, remove the affected
rows or columns, save. -/
def delete_range_operation (fs : FS) (filepath sheet_name start_cell : String)
    (end_cell : Option String) (shift_direction : String) :
    FS × Except PyErr String :=
  let path := get_full_path filepath
  match load_workbook fs path with
  | .error e => (fs, .error (.sheetError e.str))
  | .ok wb =>
      match wb.find? sheet_name with
      | none => (fs, .error (.sheetError ("Sheet '" ++ sheet_name ++ "' not found")))
      | some ws =>
          match parse_cell_range start_cell end_cell with
          | .error e => (fs, .error e)
          | .ok (r0, c0, er, ec) =>
              if pyGtIfTruthy er ws.maxRow then
                (fs, .error (.sheetError ("End row " ++ toString (er.getD 0) ++
                  " out of bounds (1-" ++ toString ws.maxRow ++ ")")))
              else if pyGtIfTruthy ec ws.maxCol then
                (fs, .error (.sheetError ("End column " ++ toString (ec.getD 0) ++
                  " out of bounds (1-" ++ toString ws.maxCol ++ ")")))
              else if shift_direction ≠ "up" ∧ shift_direction ≠ "left" then
                (fs, .error (.validationError ("Invalid shift direction: " ++
                  shift_direction ++ ". Must be 'up' or 'left'")))
              else
                let range_string := format_range_string r0 c0 (pyOr er r0) (pyOr ec c0)
                match delete_range ws start_cell end_cell with
                | .error e => (fs, .error e)
                | .ok ws1 =>
                    let ws2 :=
                      if shift_direction = "up" then
                        ws1.deleteRows r0 (pyOr er r0 - r0 + 1)
                      else
                        ws1.deleteCols c0 (pyOr ec c0 - c0 + 1)
                    (fsSave fs path (wb.modifySheet sheet_name (fun _ => ws2)),
                     .ok ("Range " ++ range_string ++ " deleted successfully"))

/-- Python dictionary values appearing in `get_sheet`'s return. -/
inductive PyVal where
  | str (s : String)
  | sheetObj (s : Sheet)
  deriving DecidableEq, Repr

/-- Python dictionary subscription `d[k]`: `KeyError` when absent. -/
def dictGet (d : List (String × PyVal)) (k : String) : Except PyErr PyVal :=
  match d.find? (fun p => p.1 == k) with
  | some p => .ok p.2
  | none => .error (.keyError k)

/-- `get_sheet(filepath, sheet_name)`: a dictionary with exactly the keys
`"message"` and `"sheet"`. -/
def get_sheet (fs : FS) (filepath sheet_name : String) :
    Except PyErr (List (String × PyVal)) :=
  let path := get_full_path filepath
  match load_workbook fs path with
  | .error e => .error (.sheetError e.str)
  | .ok wb =>
      match wb.find? sheet_name with
      | none => .error (.sheetError ("Sheet '" ++ sheet_name ++ "' not found"))
      | some ws =>
          .ok [("message", .str ("Retrieved sheet '" ++ sheet_name ++ "'")),
               ("sheet", .sheetObj ws)]

end CoreSheet

/-! ## `core/range.py` -/

namespace CoreRange

/-- `delete_range(filename, sheet_name, range_str)`: resolve the full path
(which `delete_range_operation` prefixes once more), delegate, and wrap any
raised error as `RangeError(str(e))`. -/
def delete_range (fs : FS) (filename sheet_name range_str : String) :
    FS × Except PyErr String :=
  let path := get_full_path filename
  match CoreSheet.delete_range_operation fs path sheet_name range_str none "up" with
  | (fs', .error e) => (fs', .error (.rangeError e.str))
  | (fs', .ok m) => (fs', .ok m)

/-- `copy_range(filename, sheet_name, source_range, target_range)`:
delegates to `copy_range_operation`, passing `source_range` for both the
start and end cell, and wraps any raised error as `RangeError(str(e))`. -/
def copy_range (fs : FS) (filename sheet_name source_range target_range : String) :
    FS × Except PyErr String :=
  let path := get_full_path filename
  match CoreSheet.copy_range_operation fs path sheet_name
      source_range source_range target_range none with
  | (fs', .error e) => (fs', .error (.rangeError e.str))
  | (fs', .ok m) => (fs', .ok m)

/-- `move_range(filename, sheet_name, source_range, target_range)`: first
copy to the target, then delete the source, as two separately persisted
steps; wraps any raised error as `RangeError(str(e))`. -/
def move_range (fs : FS) (filename sheet_name source_range target_range : String) :
    FS × Except PyErr String :=
  let path := get_full_path filename
  match CoreSheet.copy_range_operation fs path sheet_name
      source_range source_range target_range none with
  | (fs1, .error e) => (fs1, .error (.rangeError e.str))
  | (fs1, .ok _) =>
      match CoreSheet.delete_range_operation fs1 path sheet_name source_range none "up" with
      | (fs2, .error e) => (fs2, .error (.rangeError e.str))
      | (fs2, .ok _) =>
          (fs2, .ok ("Range moved from " ++ source_range ++ " to " ++ target_range))

/-- The range-information dictionary `validate_range` promises to return. -/
structure RangeInfo where
  start_cell : String
  end_cell : String
  num_rows : Nat
  num_cols : Nat
  is_valid : Bool
  deriving DecidableEq, Repr

/-- The body of `validate_range` before its catch-all clause: load the
workbook (`get_workbook` prefixes the already-full path once more), check
the sheet and the `:` separator, split, then compute the corner coordinates
with `int(''.join(filter(str.isdigit, cell)))` for the row and
`int(''.join(filter(str.isalpha, cell)))` for the column — the latter calls
`int` on the letter part — and finally check both corners against the
sheet dimensions. -/
def validate_range_body (fs : FS) (filename sheet_name range_str : String) :
    Except PyErr RangeInfo :=
  let path := get_full_path filename
  match CoreWorkbook.get_workbook fs path with
  | .error e => .error e
  | .ok wb =>
      if ¬ (wb.sheetnames.contains sheet_name) then
        .error (.rangeError ("Sheet '" ++ sheet_name ++ "' not found"))
      else if ¬ (range_str.toList.contains ':') then
        .error (.rangeError "Range must include start and end cells (e.g. 'A1:B10')")
      else
        match pySplit range_str ':', (wb.find? sheet_name).getD emptySheet with
        | [start_cell, end_cell], ws =>
            if start_cell = "" ∨ end_cell = "" then
              .error (.rangeError "Invalid range format")
            else do
              let start_row ← pyInt (filterDigits start_cell)
              let start_col ← pyInt (filterAlpha start_cell)
              let end_row ← pyInt (filterDigits end_cell)
              let end_col ← pyInt (filterAlpha end_cell)
              if start_row > ws.maxRow ∨ end_row > ws.maxRow then
                .error (.rangeError ("Row out of bounds (1-" ++ toString ws.maxRow ++ ")"))
              else if start_col > ws.maxCol ∨ end_col > ws.maxCol then
                .error (.rangeError ("Column out of bounds (1-" ++ toString ws.maxCol ++ ")"))
              else
                .ok ⟨start_cell, end_cell, end_row - start_row + 1, end_col - start_col + 1, true⟩
        | _, _ => .error (.valueError "too many values to unpack (expected 2)")

/-- `validate_range(filename, sheet_name, range_str)`: the body wrapped by
the catch-all `except Exception: raise RangeError(str(e))`. -/
def validate_range (fs : FS) (filename sheet_name range_str : String) :
    Except PyErr RangeInfo :=
  match validate_range_body fs filename sheet_name range_str with
  | .error e => .error (.rangeError e.str)
  | .ok r => .ok r

end CoreRange

/-! ## The tool surface -/

/-- The `{"success": ..., "message": ...}` response envelope of the tools
that return exactly those two keys. -/
structure ToolResp where
  success : Bool
  message : String
  deriving DecidableEq, Repr

namespace ToolsRange

open CoreWorkbook CoreSheet

/-- `delete_range_tool`: load the workbook object, check the sheet, run
`delete_range_operation` (which loads, mutates and saves the file itself),
then `save_workbook` the earlier object; every raised error becomes a
`success = False` response. -/
def delete_range_tool (fs : FS)
    (filename sheet_name start_cell end_cell shift_direction : String) :
    FS × ToolResp :=
  match get_workbook fs filename with
  | .error e => (fs, ⟨false, e.str⟩)
  | .ok wb =>
      if ¬ (wb.sheetnames.contains sheet_name) then
        (fs, ⟨false, "Sheet '" ++ sheet_name ++ "' not found"⟩)
      else
        match delete_range_operation fs filename sheet_name start_cell
            (some end_cell) shift_direction with
        | (fs1, .error e) => (fs1, ⟨false, e.str⟩)
        | (fs1, .ok _) =>
            (save_workbook fs1 wb filename,
             ⟨true, "Deleted range " ++ start_cell ++ ":" ++ end_cell⟩)

/-- `copy_range_tool`: same stale-save pattern around
`copy_range_operation`. -/
def copy_range_tool (fs : FS)
    (filename sheet_name source_start source_end target_start : String) :
    FS × ToolResp :=
  match get_workbook fs filename with
  | .error e => (fs, ⟨false, e.str⟩)
  | .ok wb =>
      if ¬ (wb.sheetnames.contains sheet_name) then
        (fs, ⟨false, "Sheet '" ++ sheet_name ++ "' not found"⟩)
      else
        match copy_range_operation fs filename sheet_name source_start
            source_end target_start none with
        | (fs1, .error e) => (fs1, ⟨false, e.str⟩)
        | (fs1, .ok _) =>
            (save_workbook fs1 wb filename,
             ⟨true, "Copied range " ++ source_start ++ ":" ++ source_end ++
               " to " ++ target_start⟩)

/-- `move_range_tool`: split the ranges, copy then delete the source (each
loading and saving the file), then `save_workbook` the stale object. -/
def move_range_tool (fs : FS)
    (filename sheet_name source_range target_range : String) : FS × ToolResp :=
  match get_workbook fs filename with
  | .error e => (fs, ⟨false, e.str⟩)
  | .ok wb =>
      if ¬ (wb.sheetnames.contains sheet_name) then
        (fs, ⟨false, "Sheet '" ++ sheet_name ++ "' not found"⟩)
      else
        match pySplit source_range ':' with
        | [source_start, source_end] =>
            let target_start := (pySplit target_range ':').headD target_range
            match copy_range_operation fs filename sheet_name source_start
                source_end target_start none with
            | (fs1, .error e) => (fs1, ⟨false, e.str⟩)
            | (fs1, .ok _) =>
                match delete_range_operation fs1 filename sheet_name
                    source_start (some source_end) "up" with
                | (fs2, .error e) => (fs2, ⟨false, e.str⟩)
                | (fs2, .ok _) =>
                    (save_workbook fs2 wb filename,
                     ⟨true, "Moved range '" ++ source_range ++ "' to '" ++
                       target_range ++ "' in '" ++ sheet_name ++ "'"⟩)
        | parts =>
            -- tuple unpacking of the split raises `ValueError`, caught by
            -- the tool's catch-all
            (fs, ⟨false, if parts.length < 2 then
                "not enough values to unpack (expected 2, got 1)"
              else "too many values to unpack (expected 2)"⟩)

/-- `merge_range_tool`: stale-save pattern around `merge_range`. -/
def merge_range_tool (fs : FS)
    (filename sheet_name start_cell end_cell : String) : FS × ToolResp :=
  match get_workbook fs filename with
  | .error e => (fs, ⟨false, e.str⟩)
  | .ok wb =>
      if ¬ (wb.sheetnames.contains sheet_name) then
        (fs, ⟨false, "Sheet '" ++ sheet_name ++ "' not found"⟩)
      else
        match merge_range fs filename sheet_name start_cell end_cell with
        | (fs1, .error e) => (fs1, ⟨false, e.str⟩)
        | (fs1, .ok _) =>
            (save_workbook fs1 wb filename,
             ⟨true, "Merged range " ++ start_cell ++ ":" ++ end_cell⟩)

/-- `unmerge_range_tool`: stale-save pattern around `unmerge_range`. -/
def unmerge_range_tool (fs : FS)
    (filename sheet_name start_cell end_cell : String) : FS × ToolResp :=
  match get_workbook fs filename with
  | .error e => (fs, ⟨false, e.str⟩)
  | .ok wb =>
      if ¬ (wb.sheetnames.contains sheet_name) then
        (fs, ⟨false, "Sheet '" ++ sheet_name ++ "' not found"⟩)
      else
        match unmerge_range fs filename sheet_name start_cell end_cell with
        | (fs1, .error e) => (fs1, ⟨false, e.str⟩)
        | (fs1, .ok _) =>
            (save_workbook fs1 wb filename,
             ⟨true, "Unmerged range " ++ start_cell ++ ":" ++ end_cell⟩)

/-- `validate_range_tool`: the module `api/tools/range.py` never imports
`validate_range`, so the call raises `NameError`; the tool's only handler
is `except RangeError`, which does not catch it, so the error escapes the
tool call for every input. -/
def validate_range_tool (fs : FS) (filename sheet_name range_str : String) :
    Except PyErr ToolResp :=
  .error (.valueError "name 'validate_range' is not defined")

end ToolsRange

namespace ToolsWorkbook

/-- `get_workbook_info` (tool): delegates to the core implementation with
no `try`/`except`, so any raised `WorkbookError` propagates out of the tool
call; even on success the returned dictionary is the core info dictionary,
which carries no `success` key. -/
def get_workbook_info (fs : FS) (filename : String) :
    Except PyErr CoreWorkbook.WorkbookInfo :=
  CoreWorkbook.get_workbook_info fs filename

/-- `list_workbooks` (tool): returns the core result unchanged. -/
def list_workbooks (dir : Option (List String)) :
    Option (List String) × CoreWorkbook.ListWorkbooksResp :=
  CoreWorkbook.list_workbooks dir

end ToolsWorkbook

namespace ToolsWorksheet

open CoreWorkbook CoreSheet

/-- Responses of `create_worksheet` (the dictionary carries the sheet name
alongside success and message). -/
structure SheetNameResp where
  success : Bool
  message : String
  sheet_name : String
  deriving DecidableEq, Repr

/-- Responses of `rename_worksheet` / `copy_worksheet`. -/
structure NewNameResp where
  success : Bool
  message : String
  new_name : String
  deriving DecidableEq, Repr

/-- `create_worksheet`: load, reject an existing name, append the sheet to
the in-memory object and save it (the `index` parameter is accepted but
never used by the code). -/
def create_worksheet (fs : FS) (filename sheet_name : String) :
    FS × SheetNameResp :=
  match get_workbook fs filename with
  | .error e => (fs, ⟨false, e.str, sheet_name⟩)
  | .ok wb =>
      if wb.sheetnames.contains sheet_name then
        (fs, ⟨false, "Sheet '" ++ sheet_name ++ "' already exists", sheet_name⟩)
      else
        (save_workbook fs { sheets := wb.sheets ++ [(sheet_name, emptySheet)] } filename,
         ⟨true, "Created worksheet '" ++ sheet_name ++ "'", sheet_name⟩)

/-- `delete_worksheet`: load, reject a missing sheet, reject deleting the
only sheet, else delete from the in-memory object and save it. -/
def delete_worksheet (fs : FS) (filename sheet_name : String) : FS × ToolResp :=
  match get_workbook fs filename with
  | .error e => (fs, ⟨false, e.str⟩)
  | .ok wb =>
      if ¬ (wb.sheetnames.contains sheet_name) then
        (fs, ⟨false, "Sheet '" ++ sheet_name ++ "' not found"⟩)
      else if wb.sheetnames.length = 1 then
        (fs, ⟨false, "Cannot delete the only sheet in workbook"⟩)
      else
        (save_workbook fs { sheets := wb.sheets.eraseP (fun p => p.1 == sheet_name) } filename,
         ⟨true, "Deleted worksheet '" ++ sheet_name ++ "'"⟩)

/-- `rename_worksheet`: load, check both names, call the core
`rename_sheet` (which loads, renames and saves), then save the stale
object. -/
def rename_worksheet (fs : FS) (filename old_name new_name : String) :
    FS × NewNameResp :=
  match get_workbook fs filename with
  | .error e => (fs, ⟨false, e.str, new_name⟩)
  | .ok wb =>
      if ¬ (wb.sheetnames.contains old_name) then
        (fs, ⟨false, "Sheet '" ++ old_name ++ "' not found", new_name⟩)
      else if wb.sheetnames.contains new_name then
        (fs, ⟨false, "Sheet '" ++ new_name ++ "' already exists", new_name⟩)
      else
        match rename_sheet fs filename old_name new_name with
        | (fs1, .error e) => (fs1, ⟨false, e.str, new_name⟩)
        | (fs1, .ok _) =>
            (save_workbook fs1 wb filename,
             ⟨true, "Renamed worksheet '" ++ old_name ++ "' to '" ++ new_name ++ "'",
              new_name⟩)

/-- `copy_worksheet`: load, check both names, call the core `copy_sheet`,
then save the stale object. -/
def copy_worksheet (fs : FS) (filename sheet_name new_name : String) :
    FS × NewNameResp :=
  match get_workbook fs filename with
  | .error e => (fs, ⟨false, e.str, new_name⟩)
  | .ok wb =>
      if ¬ (wb.sheetnames.contains sheet_name) then
        (fs, ⟨false, "Sheet '" ++ sheet_name ++ "' not found", new_name⟩)
      else if wb.sheetnames.contains new_name then
        (fs, ⟨false, "Sheet '" ++ new_name ++ "' already exists", new_name⟩)
      else
        match copy_sheet fs filename sheet_name new_name with
        | (fs1, .error e) => (fs1, ⟨false, e.str, new_name⟩)
        | (fs1, .ok _) =>
            (save_workbook fs1 wb filename,
             ⟨true, "Copied worksheet '" ++ sheet_name ++ "' to '" ++ new_name ++ "'",
              new_name⟩)

/-- `move_worksheet`: load, check the sheet and the index bounds, reorder
the in-memory object (`wb.move_sheet` to position `index`), save it. -/
def move_worksheet (fs : FS) (filename sheet_name : String) (index : Int) :
    FS × SheetNameResp :=
  match get_workbook fs filename with
  | .error e => (fs, ⟨false, e.str, sheet_name⟩)
  | .ok wb =>
      match wb.sheets.find? (fun p => p.1 == sheet_name) with
      | none => (fs, ⟨false, "Sheet '" ++ sheet_name ++ "' not found", sheet_name⟩)
      | some entry =>
          if index < 0 ∨ (wb.sheets.length : Int) ≤ index then
            (fs, ⟨false, "Invalid index " ++ toString index ++
              ". Must be between 0 and " ++ toString (wb.sheets.length - 1), sheet_name⟩)
          else
            (save_workbook fs
              { sheets := listInsertAt (wb.sheets.eraseP (fun p => p.1 == sheet_name))
                  index.toNat entry } filename,
             ⟨true, "Moved worksheet '" ++ sheet_name ++ "' to position " ++
               toString index, sheet_name⟩)

/-- The response dictionary of `get_worksheet`. -/
structure GetWorksheetResp where
  success : Bool
  message : String
  sheet : Option (List (String × PyVal))
  deriving DecidableEq, Repr

/-- `get_worksheet`: load, check the sheet, call `get_sheet` — whose
dictionary has only the keys `"message"` and `"sheet"` — then build the
response from `sheet["title"]`, whose `KeyError` is caught by the
catch-all and turned into a `success = False` response. -/
def get_worksheet (fs : FS) (filename sheet_name : String) : GetWorksheetResp :=
  match get_workbook fs filename with
  | .error e => ⟨false, e.str, none⟩
  | .ok wb =>
      if ¬ (wb.sheetnames.contains sheet_name) then
        ⟨false, "Sheet '" ++ sheet_name ++ "' not found", none⟩
      else
        match get_sheet fs filename sheet_name with
        | .error e => ⟨false, e.str, none⟩
        | .ok sheetDict =>
            match dictGet sheetDict "title" with
            | .error e => ⟨false, e.str, none⟩
            | .ok v =>
                ⟨true, "Retrieved worksheet '" ++ sheet_name ++ "'", some [("title", v)]⟩

end ToolsWorksheet

/-! ## The operations of the embedding, as one step type -/

/-- Every state-changing operation embedded in this development, for
stating workbook-level invariants uniformly. -/
inductive Op where
  | coreCreateWorkbook (filename sheet_name : String)
  | coreCreateSheet (filepath sheet_name : String)
  | coreCopySheet (filepath source target : String)
  | coreDeleteSheet (filepath sheet_name : String)
  | coreRenameSheet (filepath old_name new_name : String)
  | coreMoveSheet (filepath sheet_name : String) (index : Int)
  | coreMergeRange (filepath sheet_name start_cell end_cell : String)
  | coreUnmergeRange (filepath sheet_name start_cell end_cell : String)
  | coreCopyRangeOp (filepath sheet_name source_start source_end target_start : String)
      (target_sheet : Option String)
  | coreDeleteRangeOp (filepath sheet_name start_cell : String)
      (end_cell : Option String) (shift_direction : String)
  | coreRangeDelete (filename sheet_name range_str : String)
  | coreRangeCopy (filename sheet_name source_range target_range : String)
  | coreRangeMove (filename sheet_name source_range target_range : String)
  | toolDeleteRange (filename sheet_name start_cell end_cell shift_direction : String)
  | toolCopyRange (filename sheet_name source_start source_end target_start : String)
  | toolMoveRange (filename sheet_name source_range target_range : String)
  | toolMergeRange (filename sheet_name start_cell end_cell : String)
  | toolUnmergeRange (filename sheet_name start_cell end_cell : String)
  | toolCreateWorksheet (filename sheet_name : String)
  | toolDeleteWorksheet (filename sheet_name : String)
  | toolRenameWorksheet (filename old_name new_name : String)
  | toolCopyWorksheet (filename sheet_name new_name : String)
  | toolMoveWorksheet (filename sheet_name : String) (index : Int)

/-- The file system reached after running an operation (success or not). -/
def Op.apply : Op → FS → FS
  | .coreCreateWorkbook f sn, fs => (CoreWorkbook.create_workbook fs f sn).1
  | .coreCreateSheet f s, fs => (CoreSheet.create_sheet fs f s).1
  | .coreCopySheet f s t, fs => (CoreSheet.copy_sheet fs f s t).1
  | .coreDeleteSheet f s, fs => (CoreSheet.delete_sheet fs f s).1
  | .coreRenameSheet f o n, fs => (CoreSheet.rename_sheet fs f o n).1
  | .coreMoveSheet f s i, fs => (CoreSheet.move_sheet fs f s i).1
  | .coreMergeRange f s a b, fs => (CoreSheet.merge_range fs f s a b).1
  | .coreUnmergeRange f s a b, fs => (CoreSheet.unmerge_range fs f s a b).1
  | .coreCopyRangeOp f s a b t ts, fs => (CoreSheet.copy_range_operation fs f s a b t ts).1
  | .coreDeleteRangeOp f s a e d, fs => (CoreSheet.delete_range_operation fs f s a e d).1
  | .coreRangeDelete f s r, fs => (CoreRange.delete_range fs f s r).1
  | .coreRangeCopy f s a b, fs => (CoreRange.copy_range fs f s a b).1
  | .coreRangeMove f s a b, fs => (CoreRange.move_range fs f s a b).1
  | .toolDeleteRange f s a b d, fs => (ToolsRange.delete_range_tool fs f s a b d).1
  | .toolCopyRange f s a b t, fs => (ToolsRange.copy_range_tool fs f s a b t).1
  | .toolMoveRange f s a b, fs => (ToolsRange.move_range_tool fs f s a b).1
  | .toolMergeRange f s a b, fs => (ToolsRange.merge_range_tool fs f s a b).1
  | .toolUnmergeRange f s a b, fs => (ToolsRange.unmerge_range_tool fs f s a b).1
  | .toolCreateWorksheet f s, fs => (ToolsWorksheet.create_worksheet fs f s).1
  | .toolDeleteWorksheet f s, fs => (ToolsWorksheet.delete_worksheet fs f s).1
  | .toolRenameWorksheet f o n, fs => (ToolsWorksheet.rename_worksheet fs f o n).1
  | .toolCopyWorksheet f s n, fs => (ToolsWorksheet.copy_worksheet fs f s n).1
  | .toolMoveWorksheet f s i, fs => (ToolsWorksheet.move_worksheet fs f s i).1

/-- The at-least-one-sheet invariant: every workbook on disk has a
non-empty sheet list. -/
def AtLeastOneSheet (fs : FS) : Prop :=
  ∀ path wb, fsGet fs path = some wb → wb.sheets ≠ []

/-! ## Concrete fixtures for witnesses and counterexamples -/

/-- A populated value-only cell. -/
def sampleCell (v : String) : Cell := { value := some v, style := none }

/-- The 2×2 sheet the repository's own tests build (`A1`=Test1, `A2`=Test2,
`B1`=Test3, `B2`=Test4). -/
def sampleSheet : Sheet :=
  { grid := [[sampleCell "Test1", sampleCell "Test3"],
             [sampleCell "Test2", sampleCell "Test4"]]
    merged := [] }

/-- A workbook holding only `sampleSheet` as "Sheet1". -/
def sampleWB : Workbook := { sheets := [("Sheet1", sampleSheet)] }

/-- A workbook with two sheets, so sheet deletion is allowed. -/
def twoSheetWB : Workbook :=
  { sheets := [("Sheet1", sampleSheet), ("Extra", emptySheet)] }

/-- `sampleSheet` with range A1:C3 already merged. -/
def mergedSheet : Sheet := { sampleSheet with merged := [⟨1, 1, 3, 3⟩] }

/-- A workbook holding `mergedSheet` as "Sheet1". -/
def mergedWB : Workbook := { sheets := [("Sheet1", mergedSheet)] }

/-- A file system exposing `sampleWB` at the tool-level path for
`"book.xlsx"`. -/
def toolFS : FS := [(get_full_path "book.xlsx", sampleWB)]

/-- A file system exposing `twoSheetWB` at the tool-level path for
`"book.xlsx"`. -/
def twoSheetFS : FS := [(get_full_path "book.xlsx", twoSheetWB)]

/-- A file system exposing `sampleWB` at the doubly-prefixed path the
`core/range.py` wrappers produce for `"book.xlsx"` (they call
`get_full_path` once themselves and the operations they delegate to apply
it again). -/
def doubleFS : FS := [(get_full_path (get_full_path "book.xlsx"), sampleWB)]

/-- A file system exposing `mergedWB` at the sheet-level path for
`"book.xlsx"` (the `core/sheet.py` operations apply `get_full_path`
once). -/
def mergedFS : FS := [(get_full_path "book.xlsx", mergedWB)]

/-! ## Basic lemmas about the file system -/

theorem fsGet_cons_self (k : String) (v : Workbook) (t : FS) :
    fsGet ((k, v) :: t) k = some v := by
  simp [fsGet, List.find?]

theorem fsGet_cons_ne (k p : String) (v : Workbook) (t : FS) (h : k ≠ p) :
    fsGet ((k, v) :: t) p = fsGet t p := by
  simp [fsGet, List.find?, h]

theorem fsGet_fsSave_self (fs : FS) (p : String) (wb : Workbook) :
    fsGet (fsSave fs p wb) p = some wb := by
  induction fs with
  | nil => simp [fsSave, fsGet, List.find?]
  | cons hd t ih =>
      obtain ⟨k, v⟩ := hd
      by_cases hk : k = p
      · simp [fsSave, hk, fsGet_cons_self]
      · rw [fsSave, if_neg hk, fsGet_cons_ne k p v _ hk]
        exact ih

theorem fsGet_fsSave_ne (fs : FS) (p q : String) (wb : Workbook) (h : p ≠ q) :
    fsGet (fsSave fs p wb) q = fsGet fs q := by
  induction fs with
  | nil => simp [fsSave, fsGet, List.find?, h]
  | cons hd t ih =>
      obtain ⟨k, v⟩ := hd
      by_cases hk : k = p
      · subst hk
        rw [fsSave, if_pos rfl, fsGet_cons_ne k q wb t h, fsGet_cons_ne k q v t h]
      · rw [fsSave, if_neg hk]
        by_cases hq : k = q
        · subst hq
          rw [fsGet_cons_self, fsGet_cons_self]
        · rw [fsGet_cons_ne k q v _ hq, fsGet_cons_ne k q v t hq]
          exact ih

theorem fsSave_eq_of_get (fs : FS) (p : String) (wb : Workbook)
    (h : fsGet fs p = some wb) : fsSave fs p wb = fs := by
  induction fs with
  | nil => simp [fsGet, List.find?] at h
  | cons hd t ih =>
      obtain ⟨k, v⟩ := hd
      by_cases hk : k = p
      · subst hk
        rw [fsGet_cons_self] at h
        cases h
        rw [fsSave, if_pos rfl]
      · rw [fsGet_cons_ne k p v t hk] at h
        rw [fsSave, if_neg hk, ih h]

theorem fsSave_fsSave (fs : FS) (p : String) (w1 w2 : Workbook) :
    fsSave (fsSave fs p w1) p w2 = fsSave fs p w2 := by
  induction fs with
  | nil => simp [fsSave]
  | cons hd t ih =>
      obtain ⟨k, v⟩ := hd
      by_cases hk : k = p
      · simp [fsSave, hk]
      · simp only [fsSave, if_neg hk]
        rw [ih]

theorem load_workbook_ok_iff (fs : FS) (p : String) (wb : Workbook) :
    CoreWorkbook.load_workbook fs p = .ok wb ↔ fsGet fs p = some wb := by
  unfold CoreWorkbook.load_workbook
  rcases h : fsGet fs p with _ | w <;> simp [h]

theorem get_workbook_ok_iff (fs : FS) (f : String) (wb : Workbook) :
    CoreWorkbook.get_workbook fs f = .ok wb ↔
      fsGet fs (get_full_path f) = some wb := by
  unfold CoreWorkbook.get_workbook
  rcases h : fsGet fs (get_full_path f) with _ | w <;> simp [h]

theorem load_workbook_of_get {fs : FS} {p : String} {wb : Workbook}
    (h : fsGet fs p = some wb) : CoreWorkbook.load_workbook fs p = .ok wb :=
  (load_workbook_ok_iff fs p wb).mpr h

theorem sheetnames_contains_iff (wb : Workbook) (s : String) :
    wb.sheetnames.contains s = true ↔ ∃ ws, wb.find? s = some ws := by
  unfold Workbook.sheetnames Workbook.find?
  induction wb.sheets with
  | nil => simp
  | cons hd t ih =>
      by_cases hk : hd.1 = s
      · simp [List.find?, hk]
      · simpa [List.find?, hk, List.contains_cons, Ne.symm hk] using ih

/-! ## Claim C10 -/

/-- C10: for every file system and every workbook/sheet pair — in
particular an existing workbook with an existing sheet — the
`get_worksheet` tool never returns `success = True`: `get_sheet` returns a
dictionary with only the keys `"message"` and `"sheet"`, so the tool's
`sheet["title"]` access raises `KeyError`, which is caught and converted
into a `success = False` response. -/
theorem c10_get_worksheet_never_succeeds (fs : FS) (filename sheet_name : String) :
    (ToolsWorksheet.get_worksheet fs filename sheet_name).success = false := by
  unfold ToolsWorksheet.get_worksheet
  rcases hw : CoreWorkbook.get_workbook fs filename with e | wb
  · simp
  · rw [get_workbook_ok_iff] at hw
    by_cases hm : sheet_name ∈ wb.sheetnames
    · have hc : wb.sheetnames.contains sheet_name = true := List.elem_iff.mpr hm
      obtain ⟨ws, hws⟩ := (sheetnames_contains_iff wb sheet_name).mp hc
      have hl := load_workbook_of_get (p := get_full_path filename) hw
      simp [hm, CoreSheet.get_sheet, hl, hws, CoreSheet.dictGet, List.find?, PyErr.str]
    · simp [hm]

/-! ## Claim C1 -/

/-- C1 (refuted by the code): the tool surface is claimed to convert every
raised error into a `success = False` dictionary, but the
`get_workbook_info` tool has no `try`/`except` at all: on a missing file
the `WorkbookError` raised by the core implementation escapes the tool
call. Evaluated here at the failing input (an empty directory and the
filename "missing.xlsx"). -/
theorem c1_get_workbook_info_error_escapes :
    ToolsWorkbook.get_workbook_info [] "missing.xlsx" =
      .error (.workbookError "File not found: missing.xlsx") := by
  rfl

/-! ## Claim C3 -/

/-- C3 (refuted by the code): `validate_range` is claimed to return range
information for a two-corner in-bounds range, but it computes the column
index as `int(''.join(filter(str.isalpha, cell)))`, i.e. it calls `int` on
the letter part, which always raises `ValueError`; the catch-all then
re-raises it as a `RangeError`.  Evaluated at "A1:B2" on a 2×2 sheet —
an input well inside the sheet's max row and max column, where the claim
requires success. -/
theorem c3_validate_range_always_raises :
    sampleSheet.maxRow = 2 ∧ sampleSheet.maxCol = 2 ∧
    CoreRange.validate_range doubleFS "book.xlsx" "Sheet1" "A1:B2" =
      .error (.rangeError "invalid literal for int() with base 10: 'A'") := by
  refine ⟨rfl, rfl, ?_⟩
  rfl

/-! ## Claim C5 -/

/-- C5: creating a workbook at a path where the file already exists always
fails with an "already exists" message and returns with the file system —
in particular the existing file — exactly as it was before the call. -/
theorem c5_create_existing_workbook_fails_unchanged
    (fs : FS) (filename sheet_name : String) (wb : Workbook)
    (h : fsGet fs (get_full_path filename) = some wb) :
    CoreWorkbook.create_workbook fs filename sheet_name =
      (fs, ⟨false, "Workbook already exists: " ++ filename, none⟩) := by
  unfold CoreWorkbook.create_workbook
  simp [h]

/-- Witness for C5 at a concrete file system containing "book.xlsx". -/
theorem c5_witness :
    fsGet toolFS (get_full_path "book.xlsx") = some sampleWB ∧
    CoreWorkbook.create_workbook toolFS "book.xlsx" "Sheet1" =
      (toolFS, ⟨false, "Workbook already exists: book.xlsx", none⟩) :=
  ⟨by rfl, c5_create_existing_workbook_fails_unchanged toolFS "book.xlsx" "Sheet1" sampleWB (by rfl)⟩

/-! ## Claim C9 -/

/-- C9: `list_workbooks` succeeds on every state of the configured
directory, returns exactly the files whose extension is `.xlsx` or
`.xlsm`, creates the directory when absent, and returns an empty file list
(not an error) on an empty or missing directory. -/
theorem c9_list_workbooks_spec (dir : Option (List String)) :
    (CoreWorkbook.list_workbooks dir).2.success = true ∧
    (CoreWorkbook.list_workbooks dir).2.files =
      (dir.getD []).filter (fun f => pyEndsWith f ".xlsx" || pyEndsWith f ".xlsm") ∧
    (CoreWorkbook.list_workbooks dir).1 = some (dir.getD []) ∧
    (dir = none ∨ dir = some [] → (CoreWorkbook.list_workbooks dir).2.files = []) := by
  refine ⟨rfl, rfl, rfl, ?_⟩
  rintro (rfl | rfl) <;> rfl

/-- Witness for C9: on a missing directory the call succeeds with an empty
list (and on a mixed directory only spreadsheet files are listed). -/
theorem c9_witness :
    (CoreWorkbook.list_workbooks none).2.success = true ∧
    (CoreWorkbook.list_workbooks none).2.files = [] ∧
    (CoreWorkbook.list_workbooks
        (some ["report.xlsx", "notes.txt", "macro.xlsm"])).2.files =
      ["report.xlsx", "macro.xlsm"] := by
  refine ⟨(c9_list_workbooks_spec none).1,
          (c9_list_workbooks_spec none).2.2.2 (Or.inl rfl), ?_⟩
  have h := (c9_list_workbooks_spec (some ["report.xlsx", "notes.txt", "macro.xlsm"])).2.1
  rw [h]
  rfl

/-! ## Claim C7 -/

/-- C7: `move_range` produces exactly the same final state — in particular
the same final cell contents — as `copy_range` on the same source and
target followed by `delete_range` on the source range, whenever both of
those steps succeed ("absent crashes"); the difference is only that
`move_range` performs them as two separately persisted steps inside one
call. -/
theorem c7_move_range_is_copy_then_delete
    (fs fs1 fs2 : FS) (filename sheet_name source_range target_range m1 m2 : String)
    (h1 : CoreRange.copy_range fs filename sheet_name source_range target_range =
            (fs1, .ok m1))
    (h2 : CoreRange.delete_range fs1 filename sheet_name source_range = (fs2, .ok m2)) :
    CoreRange.move_range fs filename sheet_name source_range target_range =
      (fs2, .ok ("Range moved from " ++ source_range ++ " to " ++ target_range)) := by
  simp only [CoreRange.copy_range] at h1
  simp only [CoreRange.delete_range] at h2
  simp only [CoreRange.move_range]
  split
  all_goals rename_i fsa ra heq
  · rw [heq] at h1
    simp at h1
  · rw [heq] at h1
    simp only [Prod.mk.injEq, Except.ok.injEq] at h1
    obtain ⟨rfl, rfl⟩ := h1
    split
    all_goals rename_i fsb rb heq2
    · rw [heq2] at h2
      simp at h2
    · rw [heq2] at h2
      simp only [Prod.mk.injEq, Except.ok.injEq] at h2
      obtain ⟨rfl, rfl⟩ := h2
      rfl

/-- Witness for C7: a concrete workbook where a single-cell copy to "C3"
followed by deleting "A1" succeeds; `move_range` lands in the identical
final file system. -/
theorem c7_witness :
    CoreRange.move_range doubleFS "book.xlsx" "Sheet1" "A1" "C3" =
      ((CoreRange.delete_range
          (CoreRange.copy_range doubleFS "book.xlsx" "Sheet1" "A1" "C3").1
          "book.xlsx" "Sheet1" "A1").1,
       .ok "Range moved from A1 to C3") := by
  exact c7_move_range_is_copy_then_delete doubleFS
    (CoreRange.copy_range doubleFS "book.xlsx" "Sheet1" "A1" "C3").1
    (CoreRange.delete_range
      (CoreRange.copy_range doubleFS "book.xlsx" "Sheet1" "A1" "C3").1
      "book.xlsx" "Sheet1" "A1").1
    "book.xlsx" "Sheet1" "A1" "C3"
    "Range copied successfully" "Range A1:A1 deleted successfully" (by decide) (by decide)

/-! ## State-shape lemmas: each core operation either leaves the file
system unchanged or overwrites exactly its own file -/

theorem merge_range_fst (fs : FS) (f s a b : String) :
    (CoreSheet.merge_range fs f s a b).1 = fs ∨
    ∃ wb', (CoreSheet.merge_range fs f s a b).1 = fsSave fs (get_full_path f) wb' := by
  simp only [CoreSheet.merge_range]
  repeat' split
  all_goals first
  | exact Or.inl rfl
  | exact Or.inr ⟨_, rfl⟩

theorem unmerge_range_fst (fs : FS) (f s a b : String) :
    (CoreSheet.unmerge_range fs f s a b).1 = fs ∨
    ∃ wb', (CoreSheet.unmerge_range fs f s a b).1 = fsSave fs (get_full_path f) wb' := by
  simp only [CoreSheet.unmerge_range]
  repeat' split
  all_goals first
  | exact Or.inl rfl
  | exact Or.inr ⟨_, rfl⟩

theorem copy_range_operation_fst (fs : FS) (f s a b t : String) (ts : Option String) :
    (CoreSheet.copy_range_operation fs f s a b t ts).1 = fs ∨
    ∃ wb', (CoreSheet.copy_range_operation fs f s a b t ts).1 =
      fsSave fs (get_full_path f) wb' := by
  simp only [CoreSheet.copy_range_operation]
  repeat' split
  all_goals first
  | exact Or.inl rfl
  | exact Or.inr ⟨_, rfl⟩

theorem delete_range_operation_fst (fs : FS) (f s a : String) (e : Option String)
    (d : String) :
    (CoreSheet.delete_range_operation fs f s a e d).1 = fs ∨
    ∃ wb', (CoreSheet.delete_range_operation fs f s a e d).1 =
      fsSave fs (get_full_path f) wb' := by
  simp only [CoreSheet.delete_range_operation]
  repeat' split
  all_goals first
  | exact Or.inl rfl
  | exact Or.inr ⟨_, rfl⟩

/-- Overwriting the tool's file with the stale pre-call workbook object
restores the pre-call file system, for any intermediate state an operation
confined to that file can have produced. -/
theorem save_stale_restores (fs fs1 : FS) (f : String) (wb : Workbook)
    (hw : fsGet fs (get_full_path f) = some wb)
    (hfs : fs1 = fs ∨ ∃ wb', fs1 = fsSave fs (get_full_path f) wb') :
    CoreWorkbook.save_workbook fs1 wb f = fs := by
  unfold CoreWorkbook.save_workbook
  rcases hfs with h | ⟨wb', h⟩
  · rw [h]
    exact fsSave_eq_of_get fs _ wb hw
  · rw [h, fsSave_fsSave]
    exact fsSave_eq_of_get fs _ wb hw

theorem fs_shape_trans (fs fs1 fs2 : FS) (p : String)
    (h1 : fs1 = fs ∨ ∃ w, fs1 = fsSave fs p w)
    (h2 : fs2 = fs1 ∨ ∃ w, fs2 = fsSave fs1 p w) :
    fs2 = fs ∨ ∃ w, fs2 = fsSave fs p w := by
  rcases h1 with rfl | ⟨w1, rfl⟩ <;> rcases h2 with rfl | ⟨w2, rfl⟩
  · exact Or.inl rfl
  · exact Or.inr ⟨w2, rfl⟩
  · exact Or.inr ⟨w1, rfl⟩
  · exact Or.inr ⟨w2, by rw [fsSave_fsSave]⟩

/-! ## Claim C2 -/

/-- C2: each of the five range tools loads the workbook object before
invoking the core operation (which itself loads, mutates and saves the
file), then calls `save_workbook` on that earlier, unmodified object, so
whenever a tool reports `success = True` the file on disk ends in its
pre-call state — the stale save undoes the operation's persisted
mutation. -/
theorem c2_range_tools_success_restores_file
    (fs : FS) (filename sheet_name a b d t sr tr : String) :
    ((ToolsRange.delete_range_tool fs filename sheet_name a b d).2.success = true →
      (ToolsRange.delete_range_tool fs filename sheet_name a b d).1 = fs) ∧
    ((ToolsRange.copy_range_tool fs filename sheet_name a b t).2.success = true →
      (ToolsRange.copy_range_tool fs filename sheet_name a b t).1 = fs) ∧
    ((ToolsRange.move_range_tool fs filename sheet_name sr tr).2.success = true →
      (ToolsRange.move_range_tool fs filename sheet_name sr tr).1 = fs) ∧
    ((ToolsRange.merge_range_tool fs filename sheet_name a b).2.success = true →
      (ToolsRange.merge_range_tool fs filename sheet_name a b).1 = fs) ∧
    ((ToolsRange.unmerge_range_tool fs filename sheet_name a b).2.success = true →
      (ToolsRange.unmerge_range_tool fs filename sheet_name a b).1 = fs) := by
  refine ⟨?_, ?_, ?_, ?_, ?_⟩
  · -- delete_range_tool
    intro hs
    simp only [ToolsRange.delete_range_tool] at hs ⊢
    rcases hw : CoreWorkbook.get_workbook fs filename with e | wb
    · simp [hw] at hs
    · have hw2 := (get_workbook_ok_iff fs filename wb).mp hw
      rw [hw] at hs
      by_cases hm : sheet_name ∈ wb.sheetnames
      · simp [hm] at hs ⊢
        rcases hop : CoreSheet.delete_range_operation fs filename sheet_name a
            (some b) d with ⟨fs1, r⟩
        rw [hop] at hs
        cases r with
        | error e => simp at hs
        | ok m =>
            have hshape := delete_range_operation_fst fs filename sheet_name a (some b) d
            rw [hop] at hshape
            exact save_stale_restores fs fs1 filename wb hw2 hshape
      · simp [hm] at hs
  · -- copy_range_tool
    intro hs
    simp only [ToolsRange.copy_range_tool] at hs ⊢
    rcases hw : CoreWorkbook.get_workbook fs filename with e | wb
    · simp [hw] at hs
    · have hw2 := (get_workbook_ok_iff fs filename wb).mp hw
      rw [hw] at hs
      by_cases hm : sheet_name ∈ wb.sheetnames
      · simp [hm] at hs ⊢
        rcases hop : CoreSheet.copy_range_operation fs filename sheet_name a b t
            none with ⟨fs1, r⟩
        rw [hop] at hs
        cases r with
        | error e => simp at hs
        | ok m =>
            have hshape := copy_range_operation_fst fs filename sheet_name a b t none
            rw [hop] at hshape
            exact save_stale_restores fs fs1 filename wb hw2 hshape
      · simp [hm] at hs
  · -- move_range_tool
    intro hs
    simp only [ToolsRange.move_range_tool] at hs ⊢
    rcases hw : CoreWorkbook.get_workbook fs filename with e | wb
    · simp [hw] at hs
    · have hw2 := (get_workbook_ok_iff fs filename wb).mp hw
      rw [hw] at hs
      by_cases hm : sheet_name ∈ wb.sheetnames
      · simp [hm] at hs ⊢
        rcases hsp : pySplit sr ':' with _ | ⟨s1, tl⟩
        · rfl
        · rcases tl with _ | ⟨s2, tl2⟩
          · rfl
          · rcases tl2 with _ | ⟨s3, tl3⟩
            · -- exactly two parts: the copy-then-delete path
              rw [hsp] at hs
              simp at hs ⊢
              rcases hop1 : CoreSheet.copy_range_operation fs filename sheet_name s1 s2
                  ((pySplit tr ':').head?.getD tr) none with ⟨fs1, r1⟩
              rw [hop1] at hs
              cases r1 with
              | error e => simp at hs
              | ok m1 =>
                  simp at hs ⊢
                  rcases hop2 : CoreSheet.delete_range_operation fs1 filename sheet_name
                      s1 (some s2) "up" with ⟨fs2, r2⟩
                  rw [hop2] at hs
                  cases r2 with
                  | error e => simp at hs
                  | ok m2 =>
                      have hshape1 := copy_range_operation_fst fs filename sheet_name s1 s2
                        ((pySplit tr ':').head?.getD tr) none
                      rw [hop1] at hshape1
                      have hshape2 := delete_range_operation_fst fs1 filename sheet_name
                        s1 (some s2) "up"
                      rw [hop2] at hshape2
                      exact save_stale_restores fs fs2 filename wb hw2
                        (fs_shape_trans fs fs1 fs2 (get_full_path filename) hshape1 hshape2)
            · rfl
      · simp [hm] at hs
  · -- merge_range_tool
    intro hs
    simp only [ToolsRange.merge_range_tool] at hs ⊢
    rcases hw : CoreWorkbook.get_workbook fs filename with e | wb
    · simp [hw] at hs
    · have hw2 := (get_workbook_ok_iff fs filename wb).mp hw
      rw [hw] at hs
      by_cases hm : sheet_name ∈ wb.sheetnames
      · simp [hm] at hs ⊢
        rcases hop : CoreSheet.merge_range fs filename sheet_name a b with ⟨fs1, r⟩
        rw [hop] at hs
        cases r with
        | error e => simp at hs
        | ok m =>
            have hshape := merge_range_fst fs filename sheet_name a b
            rw [hop] at hshape
            exact save_stale_restores fs fs1 filename wb hw2 hshape
      · simp [hm] at hs
  · -- unmerge_range_tool
    intro hs
    simp only [ToolsRange.unmerge_range_tool] at hs ⊢
    rcases hw : CoreWorkbook.get_workbook fs filename with e | wb
    · simp [hw] at hs
    · have hw2 := (get_workbook_ok_iff fs filename wb).mp hw
      rw [hw] at hs
      by_cases hm : sheet_name ∈ wb.sheetnames
      · simp [hm] at hs ⊢
        rcases hop : CoreSheet.unmerge_range fs filename sheet_name a b with ⟨fs1, r⟩
        rw [hop] at hs
        cases r with
        | error e => simp at hs
        | ok m =>
            have hshape := unmerge_range_fst fs filename sheet_name a b
            rw [hop] at hshape
            exact save_stale_restores fs fs1 filename wb hw2 hshape
      · simp [hm] at hs

/-- Witness for C2: one successful concrete call of each of the five range
tools; the file system after each call equals the file system before it. -/
theorem c2_witness :
    ((ToolsRange.delete_range_tool toolFS "book.xlsx" "Sheet1" "A1" "B2" "up").2.success
        = true ∧
      (ToolsRange.delete_range_tool toolFS "book.xlsx" "Sheet1" "A1" "B2" "up").1
        = toolFS) ∧
    ((ToolsRange.copy_range_tool toolFS "book.xlsx" "Sheet1" "A1" "B2" "C3").2.success
        = true ∧
      (ToolsRange.copy_range_tool toolFS "book.xlsx" "Sheet1" "A1" "B2" "C3").1
        = toolFS) ∧
    ((ToolsRange.move_range_tool toolFS "book.xlsx" "Sheet1" "A1:B2" "C3").2.success
        = true ∧
      (ToolsRange.move_range_tool toolFS "book.xlsx" "Sheet1" "A1:B2" "C3").1
        = toolFS) ∧
    ((ToolsRange.merge_range_tool toolFS "book.xlsx" "Sheet1" "A1" "B2").2.success
        = true ∧
      (ToolsRange.merge_range_tool toolFS "book.xlsx" "Sheet1" "A1" "B2").1
        = toolFS) ∧
    ((ToolsRange.unmerge_range_tool mergedFS "book.xlsx" "Sheet1" "A1" "C3").2.success
        = true ∧
      (ToolsRange.unmerge_range_tool mergedFS "book.xlsx" "Sheet1" "A1" "C3").1
        = mergedFS) := by
  refine ⟨⟨by decide, ?_⟩, ⟨by decide, ?_⟩, ⟨by decide, ?_⟩, ⟨by decide, ?_⟩,
          ⟨by decide, ?_⟩⟩
  · exact (c2_range_tools_success_restores_file toolFS "book.xlsx" "Sheet1"
      "A1" "B2" "up" "C3" "A1:B2" "C3").1 (by decide)
  · exact (c2_range_tools_success_restores_file toolFS "book.xlsx" "Sheet1"
      "A1" "B2" "up" "C3" "A1:B2" "C3").2.1 (by decide)
  · exact (c2_range_tools_success_restores_file toolFS "book.xlsx" "Sheet1"
      "A1" "B2" "up" "C3" "A1:B2" "C3").2.2.1 (by decide)
  · exact (c2_range_tools_success_restores_file toolFS "book.xlsx" "Sheet1"
      "A1" "B2" "up" "C3" "A1:B2" "C3").2.2.2.1 (by decide)
  · exact (c2_range_tools_success_restores_file mergedFS "book.xlsx" "Sheet1"
      "A1" "C3" "up" "C3" "A1:B2" "C3").2.2.2.2 (by decide)

/-! ## Preservation of the at-least-one-sheet invariant -/

theorem inv_fsSave (fs : FS) (p : String) (wb : Workbook)
    (hinv : AtLeastOneSheet fs) (hwb : wb.sheets ≠ []) :
    AtLeastOneSheet (fsSave fs p wb) := by
  intro q w hq
  by_cases hpq : p = q
  · subst hpq
    rw [fsGet_fsSave_self] at hq
    cases hq
    exact hwb
  · rw [fsGet_fsSave_ne fs p q wb hpq] at hq
    exact hinv q w hq

theorem inv_load (fs : FS) (p : String) (wb : Workbook)
    (hinv : AtLeastOneSheet fs)
    (h : CoreWorkbook.load_workbook fs p = .ok wb) : wb.sheets ≠ [] :=
  hinv p wb ((load_workbook_ok_iff fs p wb).mp h)

theorem inv_get_workbook (fs : FS) (f : String) (wb : Workbook)
    (hinv : AtLeastOneSheet fs)
    (h : CoreWorkbook.get_workbook fs f = .ok wb) : wb.sheets ≠ [] :=
  hinv _ wb ((get_workbook_ok_iff fs f wb).mp h)

theorem eraseP_ne_nil_of_two_le (l : List (String × Sheet))
    (p : String × Sheet → Bool) (h : 2 ≤ l.length) : l.eraseP p ≠ [] := by
  cases l with
  | nil => simp at h
  | cons a t =>
      cases t with
      | nil => simp at h
      | cons b t2 =>
          by_cases hp : p a
          · simp [List.eraseP_cons, hp]
          · simp [List.eraseP_cons, hp]

theorem modifySheet_ne_nil (wb : Workbook) (s : String) (f : Sheet → Sheet)
    (h : wb.sheets ≠ []) : (wb.modifySheet s f).sheets ≠ [] := by
  simp only [Workbook.modifySheet]
  intro hn
  rw [List.map_eq_nil_iff] at hn
  exact h hn

/-- The length two lower bound used by the sheet-deletion branches: a sheet
present in the list plus the guard against deleting the only sheet. -/
theorem two_le_sheets_of_contains_ne_one (wb : Workbook) (s : String)
    (hc : wb.sheetnames.contains s = true) (hn : wb.sheetnames.length ≠ 1) :
    2 ≤ wb.sheets.length := by
  have hne : wb.sheetnames ≠ [] := by
    intro h
    rw [h] at hc
    simp at hc
  have h1 : 1 ≤ wb.sheetnames.length := List.length_pos.mpr hne
  have hlen : wb.sheetnames.length = wb.sheets.length := by
    simp [Workbook.sheetnames]
  omega

/-- Each successful copy step preserves a non-empty sheet list. -/
theorem copyCellStep_ne_nil (sn tn : String) (ro co : Int) (wb wb' : Workbook)
    (i j : Nat) (h : CoreSheet.copyCellStep sn tn ro co wb i j = .ok wb')
    (hwb : wb.sheets ≠ []) : wb'.sheets ≠ [] := by
  simp only [CoreSheet.copyCellStep] at h
  split at h
  · simp at h
  · simp only [Except.ok.injEq] at h
    rw [← h]
    exact modifySheet_ne_nil wb tn _ hwb

/-- `foldlM` preserves any property preserved by each step. -/
theorem foldlM_except_preserve {α : Type} (P : Workbook → Prop)
    (f : Workbook → α → Except PyErr Workbook)
    (hf : ∀ wb a wb', f wb a = .ok wb' → P wb → P wb') :
    ∀ (l : List α) (wb wb' : Workbook),
      List.foldlM f wb l = .ok wb' → P wb → P wb' := by
  intro l
  induction l with
  | nil =>
      intro wb wb' h hp
      simp only [List.foldlM] at h
      cases h
      exact hp
  | cons a t ih =>
      intro wb wb' h hp
      simp only [List.foldlM] at h
      rcases hfa : f wb a with e | w
      · rw [hfa] at h
        simp [Bind.bind, Except.bind] at h
      · rw [hfa] at h
        simp only [Bind.bind, Except.bind] at h
        exact ih w wb' h (hf wb a w hfa hp)

theorem create_workbook_inv (fs : FS) (f sn : String)
    (hinv : AtLeastOneSheet fs) :
    AtLeastOneSheet (CoreWorkbook.create_workbook fs f sn).1 := by
  simp only [CoreWorkbook.create_workbook]
  rcases h : fsGet fs (get_full_path f) with _ | wb
  · apply inv_fsSave _ _ _ hinv
    simp [CoreWorkbook.newOpenpyxlWorkbook, Workbook.sheetnames]
  · exact hinv

theorem create_sheet_inv (fs : FS) (f s : String) (hinv : AtLeastOneSheet fs) :
    AtLeastOneSheet (CoreSheet.create_sheet fs f s).1 := by
  simp only [CoreSheet.create_sheet]
  split
  · exact hinv
  · split
    · exact hinv
    · exact inv_fsSave _ _ _ hinv (by simp)

theorem copy_sheet_inv (fs : FS) (f src tgt : String)
    (hinv : AtLeastOneSheet fs) :
    AtLeastOneSheet (CoreSheet.copy_sheet fs f src tgt).1 := by
  simp only [CoreSheet.copy_sheet]
  split
  · exact hinv
  · split
    · exact hinv
    · split
      · exact hinv
      · exact inv_fsSave _ _ _ hinv (by simp)

theorem delete_sheet_inv (fs : FS) (f s : String) (hinv : AtLeastOneSheet fs) :
    AtLeastOneSheet (CoreSheet.delete_sheet fs f s).1 := by
  simp only [CoreSheet.delete_sheet]
  split
  · exact hinv
  · rename_i wb heq
    split
    · exact hinv
    · split
      · exact hinv
      · rename_i hc hlen1
        apply inv_fsSave _ _ _ hinv
        apply eraseP_ne_nil_of_two_le
        have hne := inv_load _ _ _ hinv heq
        have hmap : wb.sheetnames.length = wb.sheets.length := by
          simp [Workbook.sheetnames]
        have h0 : 0 < wb.sheets.length := List.length_pos.mpr hne
        have h1 : wb.sheets.length ≠ 1 := by
          intro hx
          exact hlen1 (by rw [hmap, hx])
        omega

theorem rename_sheet_inv (fs : FS) (f o n : String)
    (hinv : AtLeastOneSheet fs) :
    AtLeastOneSheet (CoreSheet.rename_sheet fs f o n).1 := by
  simp only [CoreSheet.rename_sheet]
  split
  · exact hinv
  · rename_i wb heq
    split
    · exact hinv
    · split
      · exact hinv
      · apply inv_fsSave _ _ _ hinv
        intro hn
        rw [List.map_eq_nil_iff] at hn
        exact inv_load _ _ _ hinv heq hn

theorem move_sheet_inv (fs : FS) (f s : String) (i : Int)
    (hinv : AtLeastOneSheet fs) :
    AtLeastOneSheet (CoreSheet.move_sheet fs f s i).1 := by
  simp only [CoreSheet.move_sheet]
  split
  · exact hinv
  · split
    · exact hinv
    · split
      · exact hinv
      · apply inv_fsSave _ _ _ hinv
        simp [listInsertAt]

theorem merge_range_inv (fs : FS) (f s a b : String)
    (hinv : AtLeastOneSheet fs) :
    AtLeastOneSheet (CoreSheet.merge_range fs f s a b).1 := by
  simp only [CoreSheet.merge_range]
  split
  · exact hinv
  · rename_i wb heq
    split
    · exact hinv
    · split
      · exact hinv
      · split
        · split
          · exact hinv
          · exact inv_fsSave _ _ _ hinv
              (modifySheet_ne_nil wb s _ (inv_load _ _ _ hinv heq))
        · exact hinv

theorem unmerge_range_inv (fs : FS) (f s a b : String)
    (hinv : AtLeastOneSheet fs) :
    AtLeastOneSheet (CoreSheet.unmerge_range fs f s a b).1 := by
  simp only [CoreSheet.unmerge_range]
  split
  · exact hinv
  · rename_i wb heq
    split
    · exact hinv
    · split
      · exact hinv
      · split
        · split
          · exact hinv
          · split
            · exact hinv
            · exact inv_fsSave _ _ _ hinv
                (modifySheet_ne_nil wb s _ (inv_load _ _ _ hinv heq))
        · exact hinv

theorem copy_range_operation_inv (fs : FS) (f s a b t : String)
    (ts : Option String) (hinv : AtLeastOneSheet fs) :
    AtLeastOneSheet (CoreSheet.copy_range_operation fs f s a b t ts).1 := by
  simp only [CoreSheet.copy_range_operation]
  split
  · exact hinv
  · rename_i wb heq
    split
    · exact hinv
    · split
      · exact hinv
      · split
        · exact hinv
        · split
          · exact hinv
          · split
            · exact hinv
            · split
              · exact hinv
              · rename_i wb2 hfold
                apply inv_fsSave _ _ _ hinv
                refine foldlM_except_preserve (fun w => w.sheets ≠ []) _ ?_ _ _ wb2
                  hfold (inv_load _ _ _ hinv heq)
                intro w i w2 hstep hw
                refine foldlM_except_preserve (fun w => w.sheets ≠ []) _ ?_ _ w w2
                  hstep hw
                intro w3 j w4 hs2 hw3
                exact copyCellStep_ne_nil _ _ _ _ w3 w4 i j hs2 hw3

theorem delete_range_operation_inv (fs : FS) (f s a : String)
    (e0 : Option String) (d : String) (hinv : AtLeastOneSheet fs) :
    AtLeastOneSheet (CoreSheet.delete_range_operation fs f s a e0 d).1 := by
  simp only [CoreSheet.delete_range_operation]
  split
  · exact hinv
  · rename_i wb heq
    split
    · exact hinv
    · split
      · exact hinv
      · split
        · exact hinv
        · split
          · exact hinv
          · split
            · exact hinv
            · split
              · exact hinv
              · exact inv_fsSave _ _ _ hinv
                  (modifySheet_ne_nil wb s _ (inv_load _ _ _ hinv heq))

theorem range_delete_inv (fs : FS) (f s r : String) (hinv : AtLeastOneSheet fs) :
    AtLeastOneSheet (CoreRange.delete_range fs f s r).1 := by
  simp only [CoreRange.delete_range]
  rcases h : CoreSheet.delete_range_operation fs (get_full_path f) s r none "up"
    with ⟨fs1, res⟩
  have h1 := delete_range_operation_inv fs (get_full_path f) s r none "up" hinv
  rw [h] at h1
  cases res <;> exact h1

theorem range_copy_inv (fs : FS) (f s sr tr : String) (hinv : AtLeastOneSheet fs) :
    AtLeastOneSheet (CoreRange.copy_range fs f s sr tr).1 := by
  simp only [CoreRange.copy_range]
  rcases h : CoreSheet.copy_range_operation fs (get_full_path f) s sr sr tr none
    with ⟨fs1, res⟩
  have h1 := copy_range_operation_inv fs (get_full_path f) s sr sr tr none hinv
  rw [h] at h1
  cases res <;> exact h1

theorem range_move_inv (fs : FS) (f s sr tr : String) (hinv : AtLeastOneSheet fs) :
    AtLeastOneSheet (CoreRange.move_range fs f s sr tr).1 := by
  simp only [CoreRange.move_range]
  split
  · rename_i fs1 e heq
    have h1 := copy_range_operation_inv fs (get_full_path f) s sr sr tr none hinv
    rw [heq] at h1
    exact h1
  · rename_i fs1 m heq
    have h1 := copy_range_operation_inv fs (get_full_path f) s sr sr tr none hinv
    rw [heq] at h1
    split
    all_goals rename_i fs2 r2 heq2
    all_goals have h3 := delete_range_operation_inv fs1 (get_full_path f) s sr none "up" h1
    all_goals rw [heq2] at h3
    all_goals exact h3

theorem delete_range_tool_inv (fs : FS) (f s a b d : String)
    (hinv : AtLeastOneSheet fs) :
    AtLeastOneSheet (ToolsRange.delete_range_tool fs f s a b d).1 := by
  simp only [ToolsRange.delete_range_tool]
  split
  · exact hinv
  · rename_i wb heq
    have hwb := inv_get_workbook fs f wb hinv heq
    split
    · exact hinv
    · rcases hop : CoreSheet.delete_range_operation fs f s a (some b) d with ⟨fs1, r⟩
      have h1 := delete_range_operation_inv fs f s a (some b) d hinv
      rw [hop] at h1
      cases r with
      | error e => exact h1
      | ok m => exact inv_fsSave _ _ _ h1 hwb

theorem copy_range_tool_inv (fs : FS) (f s a b t : String)
    (hinv : AtLeastOneSheet fs) :
    AtLeastOneSheet (ToolsRange.copy_range_tool fs f s a b t).1 := by
  simp only [ToolsRange.copy_range_tool]
  split
  · exact hinv
  · rename_i wb heq
    have hwb := inv_get_workbook fs f wb hinv heq
    split
    · exact hinv
    · rcases hop : CoreSheet.copy_range_operation fs f s a b t none with ⟨fs1, r⟩
      have h1 := copy_range_operation_inv fs f s a b t none hinv
      rw [hop] at h1
      cases r with
      | error e => exact h1
      | ok m => exact inv_fsSave _ _ _ h1 hwb

theorem move_range_tool_inv (fs : FS) (f s sr tr : String)
    (hinv : AtLeastOneSheet fs) :
    AtLeastOneSheet (ToolsRange.move_range_tool fs f s sr tr).1 := by
  simp only [ToolsRange.move_range_tool]
  split
  · exact hinv
  · rename_i wb heq
    have hwb := inv_get_workbook fs f wb hinv heq
    split
    · exact hinv
    · split
      · rename_i s1 s2 hsp
        split
        · rename_i fs1 e heq1
          have h1 := copy_range_operation_inv fs f s s1 s2
            ((pySplit tr ':').headD tr) none hinv
          rw [heq1] at h1
          exact h1
        · rename_i fs1 m1 heq1
          have h1 := copy_range_operation_inv fs f s s1 s2
            ((pySplit tr ':').headD tr) none hinv
          rw [heq1] at h1
          split
          · rename_i fs2 e heq2
            have h2 := delete_range_operation_inv fs1 f s s1 (some s2) "up" h1
            rw [heq2] at h2
            exact h2
          · rename_i fs2 m2 heq2
            have h2 := delete_range_operation_inv fs1 f s s1 (some s2) "up" h1
            rw [heq2] at h2
            exact inv_fsSave _ _ _ h2 hwb
      · exact hinv

theorem merge_range_tool_inv (fs : FS) (f s a b : String)
    (hinv : AtLeastOneSheet fs) :
    AtLeastOneSheet (ToolsRange.merge_range_tool fs f s a b).1 := by
  simp only [ToolsRange.merge_range_tool]
  split
  · exact hinv
  · rename_i wb heq
    have hwb := inv_get_workbook fs f wb hinv heq
    split
    · exact hinv
    · rcases hop : CoreSheet.merge_range fs f s a b with ⟨fs1, r⟩
      have h1 := merge_range_inv fs f s a b hinv
      rw [hop] at h1
      cases r with
      | error e => exact h1
      | ok m => exact inv_fsSave _ _ _ h1 hwb

theorem unmerge_range_tool_inv (fs : FS) (f s a b : String)
    (hinv : AtLeastOneSheet fs) :
    AtLeastOneSheet (ToolsRange.unmerge_range_tool fs f s a b).1 := by
  simp only [ToolsRange.unmerge_range_tool]
  split
  · exact hinv
  · rename_i wb heq
    have hwb := inv_get_workbook fs f wb hinv heq
    split
    · exact hinv
    · rcases hop : CoreSheet.unmerge_range fs f s a b with ⟨fs1, r⟩
      have h1 := unmerge_range_inv fs f s a b hinv
      rw [hop] at h1
      cases r with
      | error e => exact h1
      | ok m => exact inv_fsSave _ _ _ h1 hwb

theorem create_worksheet_inv (fs : FS) (f s : String)
    (hinv : AtLeastOneSheet fs) :
    AtLeastOneSheet (ToolsWorksheet.create_worksheet fs f s).1 := by
  simp only [ToolsWorksheet.create_worksheet]
  split
  · exact hinv
  · split
    · exact hinv
    · exact inv_fsSave _ _ _ hinv (by simp)

theorem delete_worksheet_inv (fs : FS) (f s : String)
    (hinv : AtLeastOneSheet fs) :
    AtLeastOneSheet (ToolsWorksheet.delete_worksheet fs f s).1 := by
  simp only [ToolsWorksheet.delete_worksheet]
  split
  · exact hinv
  · rename_i wb heq
    split
    · exact hinv
    · split
      · exact hinv
      · rename_i hc hlen1
        apply inv_fsSave _ _ _ hinv
        apply eraseP_ne_nil_of_two_le
        have hne := inv_get_workbook fs f wb hinv heq
        have hmap : wb.sheetnames.length = wb.sheets.length := by
          simp [Workbook.sheetnames]
        have h0 : 0 < wb.sheets.length := List.length_pos.mpr hne
        have h1 : wb.sheets.length ≠ 1 := by
          intro hx
          exact hlen1 (by rw [hmap, hx])
        omega

theorem rename_worksheet_inv (fs : FS) (f o n : String)
    (hinv : AtLeastOneSheet fs) :
    AtLeastOneSheet (ToolsWorksheet.rename_worksheet fs f o n).1 := by
  simp only [ToolsWorksheet.rename_worksheet]
  split
  · exact hinv
  · rename_i wb heq
    have hwb := inv_get_workbook fs f wb hinv heq
    split
    · exact hinv
    · split
      · exact hinv
      · rcases hop : CoreSheet.rename_sheet fs f o n with ⟨fs1, r⟩
        have h1 := rename_sheet_inv fs f o n hinv
        rw [hop] at h1
        cases r with
        | error e => exact h1
        | ok m => exact inv_fsSave _ _ _ h1 hwb

theorem copy_worksheet_inv (fs : FS) (f s n : String)
    (hinv : AtLeastOneSheet fs) :
    AtLeastOneSheet (ToolsWorksheet.copy_worksheet fs f s n).1 := by
  simp only [ToolsWorksheet.copy_worksheet]
  split
  · exact hinv
  · rename_i wb heq
    have hwb := inv_get_workbook fs f wb hinv heq
    split
    · exact hinv
    · split
      · exact hinv
      · rcases hop : CoreSheet.copy_sheet fs f s n with ⟨fs1, r⟩
        have h1 := copy_sheet_inv fs f s n hinv
        rw [hop] at h1
        cases r with
        | error e => exact h1
        | ok m => exact inv_fsSave _ _ _ h1 hwb

theorem move_worksheet_inv (fs : FS) (f s : String) (i : Int)
    (hinv : AtLeastOneSheet fs) :
    AtLeastOneSheet (ToolsWorksheet.move_worksheet fs f s i).1 := by
  simp only [ToolsWorksheet.move_worksheet]
  split
  · exact hinv
  · split
    · exact hinv
    · split
      · exact hinv
      · apply inv_fsSave _ _ _ hinv
        simp [listInsertAt]

/-- Every operation of the embedding preserves the at-least-one-sheet
invariant. -/
theorem op_apply_inv (op : Op) (fs : FS) (hinv : AtLeastOneSheet fs) :
    AtLeastOneSheet (op.apply fs) := by
  cases op with
  | coreCreateWorkbook f sn => exact create_workbook_inv fs f sn hinv
  | coreCreateSheet f s => exact create_sheet_inv fs f s hinv
  | coreCopySheet f s t => exact copy_sheet_inv fs f s t hinv
  | coreDeleteSheet f s => exact delete_sheet_inv fs f s hinv
  | coreRenameSheet f o n => exact rename_sheet_inv fs f o n hinv
  | coreMoveSheet f s i => exact move_sheet_inv fs f s i hinv
  | coreMergeRange f s a b => exact merge_range_inv fs f s a b hinv
  | coreUnmergeRange f s a b => exact unmerge_range_inv fs f s a b hinv
  | coreCopyRangeOp f s a b t ts => exact copy_range_operation_inv fs f s a b t ts hinv
  | coreDeleteRangeOp f s a e d => exact delete_range_operation_inv fs f s a e d hinv
  | coreRangeDelete f s r => exact range_delete_inv fs f s r hinv
  | coreRangeCopy f s a b => exact range_copy_inv fs f s a b hinv
  | coreRangeMove f s a b => exact range_move_inv fs f s a b hinv
  | toolDeleteRange f s a b d => exact delete_range_tool_inv fs f s a b d hinv
  | toolCopyRange f s a b t => exact copy_range_tool_inv fs f s a b t hinv
  | toolMoveRange f s a b => exact move_range_tool_inv fs f s a b hinv
  | toolMergeRange f s a b => exact merge_range_tool_inv fs f s a b hinv
  | toolUnmergeRange f s a b => exact unmerge_range_tool_inv fs f s a b hinv
  | toolCreateWorksheet f s => exact create_worksheet_inv fs f s hinv
  | toolDeleteWorksheet f s => exact delete_worksheet_inv fs f s hinv
  | toolRenameWorksheet f o n => exact rename_worksheet_inv fs f o n hinv
  | toolCopyWorksheet f s n => exact copy_worksheet_inv fs f s n hinv
  | toolMoveWorksheet f s i => exact move_worksheet_inv fs f s i hinv

theorem atLeastOneSheet_singleton (k : String) (wb : Workbook)
    (h : wb.sheets ≠ []) : AtLeastOneSheet [(k, wb)] := by
  intro p w hp
  by_cases hk : k = p
  · subst hk
    rw [fsGet_cons_self] at hp
    cases hp
    exact h
  · rw [fsGet_cons_ne k p wb [] hk] at hp
    simp [fsGet, List.find?] at hp

/-! ## Claim C4 -/

/-- C4: deleting the sheet that is the only sheet of a workbook always
fails — the tool answers `success = False` with the message "Cannot delete
the only sheet in workbook", the core operation raises the same
`SheetError` — and in both cases the file system is unchanged; moreover
every workbook holds at least one sheet at all times: the invariant is
preserved by every operation of the embedding. -/
theorem c4_only_sheet_delete_rejected_and_invariant :
    (∀ (fs : FS) (filename sheet_name : String) (sh : Sheet),
        fsGet fs (get_full_path filename) = some ⟨[(sheet_name, sh)]⟩ →
        ToolsWorksheet.delete_worksheet fs filename sheet_name =
          (fs, ⟨false, "Cannot delete the only sheet in workbook"⟩)) ∧
    (∀ (fs : FS) (filepath sheet_name : String) (sh : Sheet),
        fsGet fs (get_full_path filepath) = some ⟨[(sheet_name, sh)]⟩ →
        CoreSheet.delete_sheet fs filepath sheet_name =
          (fs, .error (.sheetError "Cannot delete the only sheet in workbook"))) ∧
    (∀ (op : Op) (fs : FS), AtLeastOneSheet fs → AtLeastOneSheet (op.apply fs)) := by
  refine ⟨?_, ?_, fun op fs h => op_apply_inv op fs h⟩
  · intro fs f s sh h
    have hw : CoreWorkbook.get_workbook fs f = .ok ⟨[(s, sh)]⟩ :=
      (get_workbook_ok_iff fs f _).mpr h
    simp only [ToolsWorksheet.delete_worksheet]
    rw [hw]
    simp [Workbook.sheetnames]
  · intro fs f s sh h
    have hl : CoreWorkbook.load_workbook fs (get_full_path f) = .ok ⟨[(s, sh)]⟩ :=
      load_workbook_of_get h
    simp only [CoreSheet.delete_sheet]
    rw [hl]
    simp [Workbook.sheetnames]

/-- Witness for C4 at a concrete single-sheet workbook, plus the invariant
instantiated at a concrete operation and file system. -/
theorem c4_witness :
    ToolsWorksheet.delete_worksheet toolFS "book.xlsx" "Sheet1" =
      (toolFS, ⟨false, "Cannot delete the only sheet in workbook"⟩) ∧
    CoreSheet.delete_sheet toolFS "book.xlsx" "Sheet1" =
      (toolFS, .error (.sheetError "Cannot delete the only sheet in workbook")) ∧
    AtLeastOneSheet ((Op.coreDeleteSheet "book.xlsx" "Sheet1").apply toolFS) := by
  refine ⟨c4_only_sheet_delete_rejected_and_invariant.1 toolFS "book.xlsx" "Sheet1"
            sampleSheet (by decide),
          c4_only_sheet_delete_rejected_and_invariant.2.1 toolFS "book.xlsx" "Sheet1"
            sampleSheet (by decide),
          c4_only_sheet_delete_rejected_and_invariant.2.2 _ toolFS ?_⟩
  exact atLeastOneSheet_singleton (get_full_path "book.xlsx") sampleWB (by decide)

/-! ## Grid lemmas: reading after padding, writing, clearing -/

theorem padTo_length (l : List α) (n : Nat) (d : α) :
    (padTo l n d).length = max l.length n := by
  simp [padTo]
  omega

theorem padTo_getElem? (l : List α) (n k : Nat) (d : α) :
    (padTo l n d)[k]? =
      if k < l.length then l[k]? else if k < n then some d else none := by
  simp only [padTo, List.getElem?_append, List.getElem?_replicate]
  by_cases h : k < l.length
  · simp [h]
  · rw [if_neg h, if_neg h]
    by_cases h2 : k < n
    · rw [if_pos (by omega), if_pos h2]
    · rw [if_neg (by omega), if_neg h2]

theorem cellAt_eq (s : Sheet) (r c : Nat) :
    s.cellAt r c = (((s.grid[r-1]?).getD [])[c-1]?).getD emptyCell := by
  simp [Sheet.cellAt, List.get?_eq_getElem?]

/-- Reading after `setCell`: the written coordinate holds the new cell,
every other coordinate is unchanged (all coordinates 1-based). -/
theorem cellAt_setCell (s : Sheet) (r c i j : Nat) (cl : Cell)
    (hr : 1 ≤ r) (hc : 1 ≤ c) (hi : 1 ≤ i) (hj : 1 ≤ j) :
    (s.setCell r c cl).cellAt i j =
      if i = r ∧ j = c then cl else s.cellAt i j := by
  have hglen : r - 1 < (padTo s.grid r ([] : List Cell)).length := by
    rw [padTo_length]
    omega
  have hg : (padTo s.grid r ([] : List Cell))[r-1]? =
      some ((s.grid[r-1]?).getD []) := by
    rw [padTo_getElem?]
    by_cases hrl : r - 1 < s.grid.length
    · rw [if_pos hrl, List.getElem?_eq_getElem hrl]
      simp
    · rw [if_neg hrl, if_pos (by omega), List.getElem?_eq_none (by omega)]
      simp
  simp only [Sheet.setCell, List.get?_eq_getElem?, hg]
  simp only [cellAt_eq]
  by_cases hir : i = r
  · subst hir
    rw [List.getElem?_set_self hglen]
    simp only [Option.getD_some]
    by_cases hjc : j = c
    · subst hjc
      rw [List.getElem?_set_self (by rw [padTo_length]; omega)]
      simp
    · have hne : c - 1 ≠ j - 1 := by omega
      rw [List.getElem?_set_ne hne, padTo_getElem?]
      simp only [hjc, and_false, if_false]
      by_cases hjl : j - 1 < ((s.grid[i-1]?).getD ([] : List Cell)).length
      · rw [if_pos hjl]
      · rw [if_neg hjl,
          List.getElem?_eq_none (l := (s.grid[i-1]?).getD ([] : List Cell)) (by omega)]
        by_cases hjc2 : j - 1 < c
        · rw [if_pos hjc2]
          simp
        · rw [if_neg hjc2]
  · have hne : r - 1 ≠ i - 1 := by omega
    rw [List.getElem?_set_ne hne, padTo_getElem?]
    simp only [hir, false_and, if_false]
    by_cases hil : i - 1 < s.grid.length
    · rw [if_pos hil]
    · rw [if_neg hil,
        List.getElem?_eq_none (l := s.grid) (by omega)]
      by_cases hir2 : i - 1 < r
      · rw [if_pos hir2]
        simp
      · rw [if_neg hir2]

/-- Reading after the column-clearing loop of one row. -/
theorem clearRow_cellAt (s : Sheet) (row : Nat) (c0 len i j : Nat)
    (hrow : 1 ≤ row) (hc0 : 1 ≤ c0) (hi : 1 ≤ i) (hj : 1 ≤ j) :
    ((List.range' c0 len).foldl (fun s j => s.setCell row j clearedCell) s).cellAt i j =
      if i = row ∧ c0 ≤ j ∧ j < c0 + len then clearedCell else s.cellAt i j := by
  induction len generalizing c0 s with
  | zero =>
      rw [List.range'_zero, List.foldl_nil, if_neg (by omega)]
  | succ m ih =>
      rw [List.range'_succ, List.foldl_cons]
      rw [ih (s.setCell row c0 clearedCell) (c0 + 1) (by omega)]
      by_cases hmain : i = row ∧ c0 + 1 ≤ j ∧ j < c0 + 1 + m
      · rw [if_pos hmain, if_pos (by omega)]
      · rw [if_neg hmain, cellAt_setCell s row c0 i j clearedCell hrow hc0 hi hj]
        by_cases hedge : i = row ∧ j = c0
        · rw [if_pos hedge, if_pos (by omega)]
        · rw [if_neg hedge, if_neg (by omega)]

/-- Reading after `clearRange`: every cell of the rectangle is the cleared
cell (no value, default style attributes); every other cell is unchanged. -/
theorem clearRange_cellAt (ws : Sheet) (r0 c0 r1 c1 i j : Nat)
    (hr0 : 1 ≤ r0) (hc0 : 1 ≤ c0) (hi : 1 ≤ i) (hj : 1 ≤ j) :
    (clearRange ws r0 c0 r1 c1).cellAt i j =
      if (r0 ≤ i ∧ i ≤ r1) ∧ (c0 ≤ j ∧ j ≤ c1) then clearedCell
      else ws.cellAt i j := by
  have main : ∀ (len : Nat) (r0' : Nat) (s : Sheet), 1 ≤ r0' →
      ((List.range' r0' len).foldl (fun s i =>
        (List.range' c0 (c1 + 1 - c0)).foldl (fun s j =>
          s.setCell i j clearedCell) s) s).cellAt i j =
      if (r0' ≤ i ∧ i < r0' + len) ∧ (c0 ≤ j ∧ j < c0 + (c1 + 1 - c0)) then
        clearedCell
      else s.cellAt i j := by
    intro len
    induction len with
    | zero =>
        intro r0' s hr0'
        rw [List.range'_zero, List.foldl_nil, if_neg (by omega)]
    | succ m ih =>
        intro r0' s hr0'
        rw [List.range'_succ, List.foldl_cons, ih (r0' + 1) _ (by omega)]
        by_cases hmain : (r0' + 1 ≤ i ∧ i < r0' + 1 + m) ∧
            (c0 ≤ j ∧ j < c0 + (c1 + 1 - c0))
        · rw [if_pos hmain, if_pos (by omega)]
        · rw [if_neg hmain,
            clearRow_cellAt s r0' c0 (c1 + 1 - c0) i j hr0' hc0 hi hj]
          by_cases hedge : i = r0' ∧ c0 ≤ j ∧ j < c0 + (c1 + 1 - c0)
          · rw [if_pos hedge, if_pos (by omega)]
          · rw [if_neg hedge, if_neg (by omega)]
  rw [clearRange, main (r1 + 1 - r0) r0 ws hr0]
  by_cases h : (r0 ≤ i ∧ i ≤ r1) ∧ (c0 ≤ j ∧ j ≤ c1)
  · rw [if_pos (by omega), if_pos h]
  · rw [if_neg (by omega), if_neg h]

/-! ## Claim C8 -/

/-- C8: for an existing workbook, an existing sheet and a well-formed
two-corner range, `delete_range_operation` fails with a `SheetError` when
the end row (or, with the end row in bounds, the end column) exceeds the
sheet's bounds, leaving the file system unchanged; fails with a
`ValidationError` for any shift direction other than "up" or "left" when
the range is in bounds; and on success persists the sheet obtained by
clearing every cell of the range (value and style to defaults) and then
physically removing the affected rows ("up") or columns ("left"), which
shifts the subsequent rows/columns up or left to close the gap. -/
theorem c8_delete_range_operation_spec
    (fs : FS) (filepath sheet_name start_cell end_cell d : String)
    (wb : Workbook) (ws : Sheet) (r0 c0 r1 c1 : Nat)
    (hload : fsGet fs (get_full_path filepath) = some wb)
    (hsheet : wb.find? sheet_name = some ws)
    (hparse : parse_cell_range start_cell (some end_cell) =
      .ok (r0, c0, some r1, some c1))
    (hr : 1 ≤ r0 ∧ r0 ≤ r1) (hc : 1 ≤ c0 ∧ c0 ≤ c1) :
    (ws.maxRow < r1 →
      CoreSheet.delete_range_operation fs filepath sheet_name start_cell
          (some end_cell) d =
        (fs, .error (.sheetError ("End row " ++ toString r1 ++
          " out of bounds (1-" ++ toString ws.maxRow ++ ")")))) ∧
    (r1 ≤ ws.maxRow → ws.maxCol < c1 →
      CoreSheet.delete_range_operation fs filepath sheet_name start_cell
          (some end_cell) d =
        (fs, .error (.sheetError ("End column " ++ toString c1 ++
          " out of bounds (1-" ++ toString ws.maxCol ++ ")")))) ∧
    (r1 ≤ ws.maxRow → c1 ≤ ws.maxCol → d ≠ "up" → d ≠ "left" →
      CoreSheet.delete_range_operation fs filepath sheet_name start_cell
          (some end_cell) d =
        (fs, .error (.validationError ("Invalid shift direction: " ++ d ++
          ". Must be 'up' or 'left'")))) ∧
    (r1 ≤ ws.maxRow → c1 ≤ ws.maxCol →
      CoreSheet.delete_range_operation fs filepath sheet_name start_cell
          (some end_cell) "up" =
        (fsSave fs (get_full_path filepath)
          (wb.modifySheet sheet_name
            (fun _ => (clearRange ws r0 c0 r1 c1).deleteRows r0 (r1 - r0 + 1))),
         .ok ("Range " ++ CoreSheet.format_range_string r0 c0 r1 c1 ++
           " deleted successfully"))) ∧
    (r1 ≤ ws.maxRow → c1 ≤ ws.maxCol →
      CoreSheet.delete_range_operation fs filepath sheet_name start_cell
          (some end_cell) "left" =
        (fsSave fs (get_full_path filepath)
          (wb.modifySheet sheet_name
            (fun _ => (clearRange ws r0 c0 r1 c1).deleteCols c0 (c1 - c0 + 1))),
         .ok ("Range " ++ CoreSheet.format_range_string r0 c0 r1 c1 ++
           " deleted successfully"))) ∧
    (∀ i j : Nat, r0 ≤ i → i ≤ r1 → c0 ≤ j → j ≤ c1 →
      (clearRange ws r0 c0 r1 c1).cellAt i j = clearedCell) := by
  have hl := load_workbook_of_get (p := get_full_path filepath) hload
  have hpyr : pyOr (some r1) r0 = r1 := by
    simp only [pyOr]
    rw [if_neg (by omega)]
  have hpyc : pyOr (some c1) c0 = c1 := by
    simp only [pyOr]
    rw [if_neg (by omega)]
  have hclear : CoreSheet.delete_range ws start_cell (some end_cell) =
      .ok (clearRange ws r0 c0 r1 c1) := by
    simp only [CoreSheet.delete_range, hparse, Option.getD_some]
  refine ⟨?_, ?_, ?_, ?_, ?_, ?_⟩
  · intro h1
    have hrowT : pyGtIfTruthy (some r1) ws.maxRow = true := by
      simp only [pyGtIfTruthy]
      simp only [Bool.and_eq_true, decide_eq_true_eq]
      omega
    simp only [CoreSheet.delete_range_operation, hl, hsheet, hparse, hrowT,
      Option.getD_some, if_true]
  · intro h1 h2
    have hrowF : pyGtIfTruthy (some r1) ws.maxRow = false := by
      simp only [pyGtIfTruthy]
      simp only [Bool.and_eq_false_iff, decide_eq_false_iff_not]
      omega
    have hcolT : pyGtIfTruthy (some c1) ws.maxCol = true := by
      simp only [pyGtIfTruthy]
      simp only [Bool.and_eq_true, decide_eq_true_eq]
      omega
    simp only [CoreSheet.delete_range_operation, hl, hsheet, hparse, hrowF,
      hcolT, Option.getD_some, if_true, if_false, Bool.false_eq_true]
  · intro h1 h2 h3 h4
    have hrowF : pyGtIfTruthy (some r1) ws.maxRow = false := by
      simp only [pyGtIfTruthy]
      simp only [Bool.and_eq_false_iff, decide_eq_false_iff_not]
      omega
    have hcolF : pyGtIfTruthy (some c1) ws.maxCol = false := by
      simp only [pyGtIfTruthy]
      simp only [Bool.and_eq_false_iff, decide_eq_false_iff_not]
      omega
    simp only [CoreSheet.delete_range_operation, hl, hsheet, hparse, hrowF,
      hcolF, if_false, Bool.false_eq_true]
    rw [if_pos ⟨h3, h4⟩]
  · intro h1 h2
    have hrowF : pyGtIfTruthy (some r1) ws.maxRow = false := by
      simp only [pyGtIfTruthy]
      simp only [Bool.and_eq_false_iff, decide_eq_false_iff_not]
      omega
    have hcolF : pyGtIfTruthy (some c1) ws.maxCol = false := by
      simp only [pyGtIfTruthy]
      simp only [Bool.and_eq_false_iff, decide_eq_false_iff_not]
      omega
    simp only [CoreSheet.delete_range_operation, hl, hsheet, hparse, hrowF,
      hcolF, hclear, hpyr, hpyc, if_false, Bool.false_eq_true]
    simp
  · intro h1 h2
    have hrowF : pyGtIfTruthy (some r1) ws.maxRow = false := by
      simp only [pyGtIfTruthy]
      simp only [Bool.and_eq_false_iff, decide_eq_false_iff_not]
      omega
    have hcolF : pyGtIfTruthy (some c1) ws.maxCol = false := by
      simp only [pyGtIfTruthy]
      simp only [Bool.and_eq_false_iff, decide_eq_false_iff_not]
      omega
    simp only [CoreSheet.delete_range_operation, hl, hsheet, hparse, hrowF,
      hcolF, hclear, hpyr, hpyc, if_false, Bool.false_eq_true]
    simp
  · intro i j hi1 hi2 hj1 hj2
    rw [clearRange_cellAt ws r0 c0 r1 c1 i j (by omega) (by omega) (by omega)
      (by omega)]
    rw [if_pos ⟨⟨hi1, hi2⟩, hj1, hj2⟩]

/-- Witness for C8: on the concrete 2×2 sheet, an end row of 99 yields the
out-of-bounds `SheetError`, an unsupported direction yields the
`ValidationError`, and an in-bounds "up" deletion persists the cleared
and row-shifted sheet; cell (1,1) of the cleared range is the default
cell. -/
theorem c8_witness :
    CoreSheet.delete_range_operation toolFS "book.xlsx" "Sheet1" "A1"
        (some "B99") "up" =
      (toolFS, .error (.sheetError "End row 99 out of bounds (1-2)")) ∧
    CoreSheet.delete_range_operation toolFS "book.xlsx" "Sheet1" "A1"
        (some "B2") "down" =
      (toolFS, .error (.validationError
        "Invalid shift direction: down. Must be 'up' or 'left'")) ∧
    CoreSheet.delete_range_operation toolFS "book.xlsx" "Sheet1" "A1"
        (some "B2") "up" =
      (fsSave toolFS (get_full_path "book.xlsx")
        (sampleWB.modifySheet "Sheet1"
          (fun _ => (clearRange sampleSheet 1 1 2 2).deleteRows 1 2)),
       .ok ("Range " ++ CoreSheet.format_range_string 1 1 2 2 ++
         " deleted successfully")) ∧
    (clearRange sampleSheet 1 1 2 2).cellAt 1 1 = clearedCell := by
  refine ⟨(c8_delete_range_operation_spec toolFS "book.xlsx" "Sheet1" "A1" "B99"
            "up" sampleWB sampleSheet 1 1 99 2 (by decide) (by decide) (by decide)
            (by decide) (by decide)).1 (by decide),
          (c8_delete_range_operation_spec toolFS "book.xlsx" "Sheet1" "A1" "B2"
            "down" sampleWB sampleSheet 1 1 2 2 (by decide) (by decide) (by decide)
            (by decide) (by decide)).2.2.1 (by decide) (by decide) (by decide)
            (by decide),
          (c8_delete_range_operation_spec toolFS "book.xlsx" "Sheet1" "A1" "B2"
            "up" sampleWB sampleSheet 1 1 2 2 (by decide) (by decide) (by decide)
            (by decide) (by decide)).2.2.2.1 (by decide) (by decide),
          (c8_delete_range_operation_spec toolFS "book.xlsx" "Sheet1" "A1" "B2"
            "up" sampleWB sampleSheet 1 1 2 2 (by decide) (by decide) (by decide)
            (by decide) (by decide)).2.2.2.2.2 1 1 (by decide) (by decide)
            (by decide) (by decide)⟩

/-! ## Merged-range lemmas for claim C6 -/

theorem setCell_merged (s : Sheet) (r c : Nat) (cl : Cell) :
    (s.setCell r c cl).merged = s.merged := by
  simp only [Sheet.setCell]
  split <;> rfl

theorem foldl_setCell_merged (s : Sheet) (l : List Nat)
    (f : Sheet → Nat → Sheet) (hf : ∀ s a, (f s a).merged = s.merged) :
    (l.foldl f s).merged = s.merged := by
  induction l generalizing s with
  | nil => rfl
  | cons a t ih => rw [List.foldl_cons, ih, hf]

theorem cleanMergeRange_merged (s : Sheet) (q : MRange) :
    (cleanMergeRange s q).merged = s.merged := by
  unfold cleanMergeRange
  apply foldl_setCell_merged
  intro s1 r
  apply foldl_setCell_merged
  intro s2 c
  by_cases h : r = q.minRow ∧ c = q.minCol
  · rw [if_pos h]
  · rw [if_neg h, setCell_merged]

theorem cleanMergeRange_grid_merged (s : Sheet) (q : MRange) :
    cleanMergeRange s q = { grid := (cleanMergeRange s q).grid, merged := s.merged } := by
  have h := cleanMergeRange_merged s q
  cases hm : cleanMergeRange s q with
  | mk g m =>
      rw [hm] at h
      simp at h
      rw [h]

theorem find?_map_modify (l : List (String × Sheet)) (s : String)
    (f : Sheet → Sheet) (ws : Sheet)
    (h : (l.find? (fun p => p.1 = s)).map Prod.snd = some ws) :
    ((l.map (fun p => if p.1 = s then (p.1, f p.2) else p)).find?
        (fun p => p.1 = s)).map Prod.snd = some (f ws) := by
  induction l with
  | nil => simp at h
  | cons hd t ih =>
      by_cases hk : hd.1 = s
      · rw [List.find?_cons_of_pos _ (by simp [hk])] at h
        simp only [List.map_cons, if_pos hk]
        rw [List.find?_cons_of_pos _ (by simp [hk])]
        simp only [Option.map_some'] at h ⊢
        simp at h
        simp [h]
      · rw [List.find?_cons_of_neg _ (by simp [hk])] at h
        simp only [List.map_cons, if_neg hk]
        rw [List.find?_cons_of_neg _ (by simp [hk])]
        exact ih h

theorem find?_modifySheet_self (wb : Workbook) (s : String) (f : Sheet → Sheet)
    (ws : Sheet) (h : wb.find? s = some ws) :
    (wb.modifySheet s f).find? s = some (f ws) := by
  simp only [Workbook.find?, Workbook.modifySheet] at h ⊢
  exact find?_map_modify wb.sheets s f ws h

theorem mrange_subset_refl (q : MRange) : q.subset q = true := by
  simp [MRange.subset]

theorem coordStr_of_not_single (r0 c0 r1 c1 : Nat)
    (h : ¬(r0 = r1 ∧ c0 = c1)) :
    (MRange.mk r0 c0 r1 c1).coordStr =
      CoreSheet.format_range_string r0 c0 r1 c1 := by
  simp only [MRange.coordStr, CoreSheet.format_range_string]
  rw [if_neg (by intro hx; exact h ⟨hx.2, hx.1⟩)]

/-! ## Claim C6 -/

/-- C6 (counterexample): on a sheet whose merged-range set already holds
A1:C3, merging the strict sub-range A1:B2 reports success (openpyxl's
`MultiCellRange.add` is a no-op for a range contained in an existing merge)
but immediately unmerging that exact same normalized range fails with
"not merged" — so merge-then-unmerge of the same range does not always
succeed, contradicting the claim as stated. -/
theorem c6_counterexample :
    (CoreSheet.merge_range mergedFS "book.xlsx" "Sheet1" "A1" "B2").2 =
      .ok ⟨true, "Merged range A1:B2 in Sheet1"⟩ ∧
    (CoreSheet.unmerge_range
        (CoreSheet.merge_range mergedFS "book.xlsx" "Sheet1" "A1" "B2").1
        "book.xlsx" "Sheet1" "A1" "B2").2 =
      .error (.sheetError "Range 'A1:B2' is not merged") := by
  exact ⟨by decide, by decide⟩

/-- C6 (amended): provided the normalized range spans more than a single
cell and is not contained in any currently merged range, merging it and
then immediately unmerging the exact same normalized range succeeds and
restores the sheet's merged-range set to its prior state; and unmerging
any range whose exact normalized (upper-cased) string is absent from the
merged-range set fails with the `SheetError` "not merged" and leaves the
file system unchanged — the membership test is an exact string match, not
a containment check. -/
theorem c6_merge_unmerge_exact_match :
    (∀ (fs : FS) (filepath sheet_name start_cell end_cell : String)
        (wb : Workbook) (ws : Sheet) (r0 c0 r1 c1 : Nat),
      fsGet fs (get_full_path filepath) = some wb →
      wb.find? sheet_name = some ws →
      parse_cell_range start_cell (some end_cell) = .ok (r0, c0, some r1, some c1) →
      r0 ≤ r1 → c0 ≤ c1 → ¬(r0 = r1 ∧ c0 = c1) →
      (∀ mr ∈ ws.merged, (MRange.mk r0 c0 r1 c1).subset mr = false) →
      ∃ wb1 ws1 wb2 ws2,
        CoreSheet.merge_range fs filepath sheet_name start_cell end_cell =
          (fsSave fs (get_full_path filepath) wb1,
           .ok ⟨true, "Merged range " ++ CoreSheet.format_range_string r0 c0 r1 c1 ++
             " in " ++ sheet_name⟩) ∧
        wb1.find? sheet_name = some ws1 ∧
        ws1.merged = ws.merged ++ [⟨r0, c0, r1, c1⟩] ∧
        CoreSheet.unmerge_range (fsSave fs (get_full_path filepath) wb1) filepath
            sheet_name start_cell end_cell =
          (fsSave (fsSave fs (get_full_path filepath) wb1) (get_full_path filepath) wb2,
           .ok ⟨true, "Unmerged range " ++ CoreSheet.format_range_string r0 c0 r1 c1 ++
             " in " ++ sheet_name⟩) ∧
        wb2.find? sheet_name = some ws2 ∧
        ws2.merged = ws.merged) ∧
    (∀ (fs : FS) (filepath sheet_name start_cell end_cell : String)
        (wb : Workbook) (ws : Sheet) (r0 c0 r1 c1 : Nat),
      fsGet fs (get_full_path filepath) = some wb →
      wb.find? sheet_name = some ws →
      parse_cell_range start_cell (some end_cell) = .ok (r0, c0, some r1, some c1) →
      (∀ mr ∈ ws.merged,
        pyUpper mr.coordStr ≠ pyUpper (CoreSheet.format_range_string r0 c0 r1 c1)) →
      CoreSheet.unmerge_range fs filepath sheet_name start_cell end_cell =
        (fs, .error (.sheetError ("Range '" ++
          CoreSheet.format_range_string r0 c0 r1 c1 ++ "' is not merged")))) := by
  constructor
  · intro fs filepath sheet_name st en wb ws r0 c0 r1 c1 hload hsheet hparse hrr hcc
      hnotcell hfree
    have hl := load_workbook_of_get (p := get_full_path filepath) hload
    have hqnotmem : (MRange.mk r0 c0 r1 c1) ∉ ws.merged := by
      intro hmem
      have hx := hfree _ hmem
      rw [mrange_subset_refl] at hx
      cases hx
    have hanyfree : ws.merged.any
        (fun r => (MRange.mk r0 c0 r1 c1).subset r) = false := by
      rw [List.any_eq_false]
      intro mr hmr
      simp [hfree mr hmr]
    have hmc : ws.mergeCells ⟨r0, c0, r1, c1⟩ =
        .ok (cleanMergeRange { ws with merged := ws.merged ++ [⟨r0, c0, r1, c1⟩] }
          ⟨r0, c0, r1, c1⟩) := by
      simp only [Sheet.mergeCells, hanyfree]
      rw [if_neg (by simp; omega)]
      simp
    have hws1 : (cleanMergeRange { ws with merged := ws.merged ++ [⟨r0, c0, r1, c1⟩] }
        ⟨r0, c0, r1, c1⟩).merged = ws.merged ++ [⟨r0, c0, r1, c1⟩] := by
      rw [cleanMergeRange_merged]
    have hcoord : (MRange.mk r0 c0 r1 c1).coordStr =
        CoreSheet.format_range_string r0 c0 r1 c1 :=
      coordStr_of_not_single r0 c0 r1 c1 hnotcell
    refine ⟨wb.modifySheet sheet_name (fun _ =>
        cleanMergeRange { ws with merged := ws.merged ++ [⟨r0, c0, r1, c1⟩] }
          ⟨r0, c0, r1, c1⟩),
      cleanMergeRange { ws with merged := ws.merged ++ [⟨r0, c0, r1, c1⟩] }
        ⟨r0, c0, r1, c1⟩,
      (wb.modifySheet sheet_name (fun _ =>
        cleanMergeRange { ws with merged := ws.merged ++ [⟨r0, c0, r1, c1⟩] }
          ⟨r0, c0, r1, c1⟩)).modifySheet sheet_name (fun _ =>
        { cleanMergeRange { ws with merged := ws.merged ++ [⟨r0, c0, r1, c1⟩] }
            ⟨r0, c0, r1, c1⟩ with merged := ws.merged }),
      { cleanMergeRange { ws with merged := ws.merged ++ [⟨r0, c0, r1, c1⟩] }
          ⟨r0, c0, r1, c1⟩ with merged := ws.merged },
      ?_, find?_modifySheet_self wb sheet_name _ ws hsheet, hws1, ?_,
      find?_modifySheet_self _ sheet_name _ _
        (find?_modifySheet_self wb sheet_name _ ws hsheet), rfl⟩
    · simp only [CoreSheet.merge_range, hl, hsheet, hparse, hmc]
    · have hl1 := load_workbook_of_get (p := get_full_path filepath)
        (fsGet_fsSave_self fs (get_full_path filepath)
          (wb.modifySheet sheet_name (fun _ =>
            cleanMergeRange { ws with merged := ws.merged ++ [⟨r0, c0, r1, c1⟩] }
              ⟨r0, c0, r1, c1⟩)))
      have hfind1 := find?_modifySheet_self wb sheet_name (fun _ =>
        cleanMergeRange { ws with merged := ws.merged ++ [⟨r0, c0, r1, c1⟩] }
          ⟨r0, c0, r1, c1⟩) ws hsheet
      have hmem1 : (cleanMergeRange
          { ws with merged := ws.merged ++ [⟨r0, c0, r1, c1⟩] }
          ⟨r0, c0, r1, c1⟩).merged.any (fun mr =>
            pyUpper mr.coordStr ==
              pyUpper (CoreSheet.format_range_string r0 c0 r1 c1)) = true := by
        rw [hws1, List.any_append]
        simp [hcoord]
      have hsub1 : (cleanMergeRange
          { ws with merged := ws.merged ++ [⟨r0, c0, r1, c1⟩] }
          ⟨r0, c0, r1, c1⟩).merged.any
            (fun r => (MRange.mk r0 c0 r1 c1).subset r) = true := by
        rw [hws1, List.any_append]
        simp [mrange_subset_refl]
      have hexact1 : (cleanMergeRange
          { ws with merged := ws.merged ++ [⟨r0, c0, r1, c1⟩] }
          ⟨r0, c0, r1, c1⟩).merged.any
            (fun r => decide (r = ⟨r0, c0, r1, c1⟩)) = true := by
        rw [hws1, List.any_append]
        simp
      have herase : (cleanMergeRange
          { ws with merged := ws.merged ++ [⟨r0, c0, r1, c1⟩] }
          ⟨r0, c0, r1, c1⟩).merged.erase ⟨r0, c0, r1, c1⟩ = ws.merged := by
        rw [hws1, List.erase_append_right _ hqnotmem, List.erase_cons_head]
        simp
      have hunmc : Sheet.unmergeCells (cleanMergeRange
          { ws with merged := ws.merged ++ [⟨r0, c0, r1, c1⟩] }
          ⟨r0, c0, r1, c1⟩) ⟨r0, c0, r1, c1⟩ =
          .ok { cleanMergeRange
              { ws with merged := ws.merged ++ [⟨r0, c0, r1, c1⟩] }
              ⟨r0, c0, r1, c1⟩ with merged := ws.merged } := by
        simp only [Sheet.unmergeCells, hsub1, hexact1, herase]
        rw [if_neg (by simp; omega)]
        simp
      simp only [CoreSheet.unmerge_range, hl1, hfind1, hparse, hmem1, hunmc]
      simp
  · intro fs filepath sheet_name st en wb ws r0 c0 r1 c1 hload hsheet hparse hnomem
    have hl := load_workbook_of_get (p := get_full_path filepath) hload
    have hany : ws.merged.any (fun mr =>
        pyUpper mr.coordStr ==
          pyUpper (CoreSheet.format_range_string r0 c0 r1 c1)) = false := by
      rw [List.any_eq_false]
      intro mr hmr
      simpa using hnomem mr hmr
    simp only [CoreSheet.unmerge_range, hl, hsheet, hparse, hany]
    simp

/-- Witness for the amended C6: on the concrete merge-free sheet, merging
A1:B2 then unmerging it succeeds and restores the (empty) merged-range
set; unmerging the never-merged A1:C3 fails with "not merged" and leaves
the file system unchanged. -/
theorem c6_witness :
    (∃ wb1 ws1 wb2 ws2,
      CoreSheet.merge_range toolFS "book.xlsx" "Sheet1" "A1" "B2" =
        (fsSave toolFS (get_full_path "book.xlsx") wb1,
         .ok ⟨true, "Merged range " ++ CoreSheet.format_range_string 1 1 2 2 ++
           " in " ++ "Sheet1"⟩) ∧
      wb1.find? "Sheet1" = some ws1 ∧
      ws1.merged = sampleSheet.merged ++ [⟨1, 1, 2, 2⟩] ∧
      CoreSheet.unmerge_range (fsSave toolFS (get_full_path "book.xlsx") wb1)
          "book.xlsx" "Sheet1" "A1" "B2" =
        (fsSave (fsSave toolFS (get_full_path "book.xlsx") wb1)
            (get_full_path "book.xlsx") wb2,
         .ok ⟨true, "Unmerged range " ++ CoreSheet.format_range_string 1 1 2 2 ++
           " in " ++ "Sheet1"⟩) ∧
      wb2.find? "Sheet1" = some ws2 ∧
      ws2.merged = sampleSheet.merged) ∧
    CoreSheet.unmerge_range toolFS "book.xlsx" "Sheet1" "A1" "C3" =
      (toolFS, .error (.sheetError ("Range '" ++
        CoreSheet.format_range_string 1 1 3 3 ++ "' is not merged"))) :=
  ⟨c6_merge_unmerge_exact_match.1 toolFS "book.xlsx" "Sheet1" "A1" "B2"
      sampleWB sampleSheet 1 1 2 2 (by decide) (by decide) (by decide)
      (by decide) (by decide) (by decide) (by intro mr hmr; simp [sampleSheet] at hmr),
   c6_merge_unmerge_exact_match.2 toolFS "book.xlsx" "Sheet1" "A1" "C3"
      sampleWB sampleSheet 1 1 3 3 (by decide) (by decide) (by decide)
      (by intro mr hmr; simp [sampleSheet] at hmr)⟩

end MCPExcel
